import Mathlib

/-!
# RealSensePlugin: depth quantisation, frame marshaling, sensor binding and dispatch

A shallow embedding of `src/RealSensePlugin.cpp`.

Conventions of the embedding

* `float`/`double` values are exact rationals (`ℚ`); rounding of the
  floating-point formats is not modelled.
* `unsigned int` arithmetic is arithmetic on `Nat` reduced modulo `2^32`;
  `size_t` arithmetic is reduced modulo `2^64`.
* A pointer is `Option`: `none` is the null pointer.  Dereferencing a null
  pointer and reading or writing outside a buffer are undefined behaviour in
  the source; the embedding makes them the results `Fault.nullDeref` and
  `Fault.outOfBounds` of an `Except Fault` computation.
* The simulator (sensor manager, camera objects, clock, allocator, image
  library) is an explicit `Host` value; the transport is the pair of logs
  `advertised` / `published` in the plugin state, and `std::cerr` is the log
  `cerr`.
* The members `rsModel` and `world` are seen through the `Host` fields
  `modelName`, `worldName` and `SimTime`.  Members set by `Load` that no
  modelled function reads afterwards (`cameraParamsMap_`, the point-cloud
  options) are left out of the state.
-/

namespace RealSense

/-! ## Constants -/

/-- The macro `DEPTH_SCALE_M` (line 22): metres per depth unit. -/
def DEPTH_SCALE_M : ℚ := 1 / 1000

/-- The constant `UINT16_MAX`. -/
def UINT16_MAX : Nat := 65535

/-- Modulus of `unsigned int` arithmetic. -/
def UINT_MOD : Nat := 4294967296

/-- Modulus of `size_t` arithmetic (LP64 target). -/
def SIZE_MOD : Nat := 18446744073709551616

/-- The macro `DEPTH_CAMERA_TOPIC` (line 24). -/
def DEPTH_CAMERA_TOPIC : String := "depth"
/-- The macro `COLOR_CAMERA_TOPIC` (line 25). -/
def COLOR_CAMERA_TOPIC : String := "color"
/-- The macro `IRED1_CAMERA_TOPIC` (line 26). -/
def IRED1_CAMERA_TOPIC : String := "infrared"
/-- The macro `IRED2_CAMERA_TOPIC` (line 27). -/
def IRED2_CAMERA_TOPIC : String := "infrared2"

/-- The sensor-name macros `DEPTH_CAMERA_NAME`, `COLOR_CAMERA_NAME`,
`IRED1_CAMERA_NAME`, `IRED2_CAMERA_NAME` come from the plugin header
`RealSensePlugin.h`; their values are parameters of the model. -/
structure CameraNames where
  DEPTH_CAMERA_NAME : String
  COLOR_CAMERA_NAME : String
  IRED1_CAMERA_NAME : String
  IRED2_CAMERA_NAME : String

/-! ## Data model -/

/-- The two kinds of undefined behaviour the embedding tracks. -/
inductive Fault where
  | nullDeref
  | outOfBounds
  deriving DecidableEq, Repr

/-- Identity of a camera object owned by the simulator (a non-null
`rendering::CameraPtr` / `rendering::DepthCameraPtr`). -/
abbrev CamPtr := Nat

/-- Values of the image library enumeration `common::Image::PixelFormat`. -/
abbrev PixelFormat := Nat

/-- The enumerator `common::Image::L_INT16`. -/
def L_INT16 : PixelFormat := 2

/-- Object representation of a 16-bit value in memory. -/
inductive ByteOrder where
  | little
  | big
  deriving DecidableEq, Repr

/-- What the plugin can observe of a camera object at one instant: the values
returned by `ImageWidth()`, `ImageHeight()`, `ImageDepth()`, `ImageFormat()`,
the byte buffer behind `ImageData()` and, for a depth camera, the float buffer
behind `DepthData()`. -/
structure Camera where
  ImageWidth : Nat
  ImageHeight : Nat
  ImageDepth : Nat
  ImageFormat : String
  ImageData : List Nat
  DepthData : List ℚ

/-- A sensor seen through a successful `std::dynamic_pointer_cast<T>`: `Camera`
is what its accessor returns, `Camera()` for a `CameraSensor` and
`DepthCamera()` for a `DepthCameraSensor`; `none` is a null camera pointer. -/
structure TypedSensor where
  Camera : Option CamPtr
  deriving DecidableEq, Repr

/-- A sensor of the sensor manager.  `depthCameraSensor` is the result of
`dynamic_pointer_cast<DepthCameraSensor>` on the sensor and `cameraSensor` that
of `dynamic_pointer_cast<CameraSensor>`; `none` is a failed cast. -/
structure Sensor where
  Name : String
  depthCameraSensor : Option TypedSensor
  cameraSensor : Option TypedSensor

/-- The sensor classes `GetAndCheckSensor` is instantiated with. -/
inductive SensorKind where
  | DepthCameraSensor
  | CameraSensor
  deriving DecidableEq, Repr

/-- The simulator as the plugin sees it at one instant. -/
structure Host where
  /-- Result of `SensorManager::GetSensor(name)`; `none` is `NULL` -/
  GetSensor : String → Option Sensor
  /-- Result of `SensorManager::GetSensors()` -/
  GetSensors : List Sensor
  /-- Current state of each camera object -/
  cam : CamPtr → Camera
  /-- Result of `world->SimTime()` -/
  SimTime : Nat
  /-- Result of `world->Name()` -/
  worldName : String
  /-- Result of `_model->GetName()` -/
  modelName : String
  /-- Whether storage for a `std::vector<uint16_t>` of `n` elements can be
  allocated; `false` is `std::bad_alloc` -/
  allocOk : Nat → Bool
  /-- The library function `common::Image::ConvertPixelFormat`, from the name
  of a pixel format to the pixel format -/
  ConvertPixelFormat : String → PixelFormat
  /-- The library table `common::PixelFormatNames`, from a pixel format to its
  name -/
  PixelFormatNames : PixelFormat → String
  /-- Byte order of the target -/
  byteOrder : ByteOrder

/-- The configuration element handed to `Load`, through the three accessors
the plugin uses. -/
structure Sdf where
  HasElement : String → Bool
  GetDouble : String → ℚ
  GetFloat : String → ℚ
  GetString : String → String

/-- The message `msgs::ImageStamped`: time stamp and the image fields the
plugin sets. -/
structure ImageStamped where
  time : Nat
  width : Nat
  height : Nat
  pixel_format : PixelFormat
  step : Nat
  data : List Nat
  deriving DecidableEq, Repr

/-- A publisher created by `Advertise(topic, queueLimit, hzRate)`. -/
structure Channel where
  topic : String
  queueLimit : Nat
  hzRate : ℚ
  deriving DecidableEq, Repr

/-- A non-null `transport::PublisherPtr`: position of the publisher among those
advertised on the transport node. -/
abbrev PubId := Nat

/-- The two camera events the plugin connects to. -/
inductive FrameEvent where
  | NewDepthFrame
  | NewImageFrame
  deriving DecidableEq, Repr

/-- The bound callbacks of lines 232-242: `std::bind` stores the camera and
publisher pointers at the time of the call. -/
inductive Callback where
  | OnNewDepthFrame
  | OnNewFrame (cam : Option CamPtr) (pub : Option PubId)
  deriving DecidableEq, Repr

/-- An active `event::ConnectionPtr`: the camera and event it was made on and
the callback it runs. -/
structure Conn where
  source : CamPtr
  event : FrameEvent
  callback : Callback
  deriving DecidableEq, Repr

/-- The four sensor roles. -/
inductive Role where
  | depth
  | ired1
  | ired2
  | color
  deriving DecidableEq, Repr

/-- Lines written to `std::cerr`. -/
inductive Diag where
  /-- "Sensor 'name' not found. Available sensor are:" and the list (lines 37-42) -/
  | sensorNotFound (name : String) (available : List String)
  /-- "... Camera has not been found" (lines 175-194) -/
  | cameraNotFound (role : Role)
  /-- "Aborting loading" (line 199) -/
  | abortingLoading
  /-- "depthMap allocation failed" (line 210) -/
  | allocationFailed
  deriving DecidableEq, Repr

/-- The members of `RealSensePlugin` the modelled functions use, together with
the transport node's publishers, the log of `Publish` calls and `std::cerr`. -/
structure RealSensePlugin where
  depthCam : Option CamPtr
  ired1Cam : Option CamPtr
  ired2Cam : Option CamPtr
  colorCam : Option CamPtr
  pfx : String
  depthUpdateRate_ : ℚ
  colorUpdateRate_ : ℚ
  infraredUpdateRate_ : ℚ
  rangeMinDepth_ : ℚ
  rangeMaxDepth_ : ℚ
  depthMap : List Nat
  depthPub : Option PubId
  ired1Pub : Option PubId
  ired2Pub : Option PubId
  colorPub : Option PubId
  newDepthFrameConn : Option Conn
  newIred1FrameConn : Option Conn
  newIred2FrameConn : Option Conn
  newColorFrameConn : Option Conn
  updateConnection : Bool
  advertised : List Channel
  published : List (PubId × ImageStamped)
  cerr : List Diag
  deriving DecidableEq, Repr

/-- Default member initialisers of the plugin header `RealSensePlugin.h` for the
members the constructor does not assign; parameters of the model. -/
structure HeaderDefaults where
  depthUpdateRate_ : ℚ
  colorUpdateRate_ : ℚ
  infraredUpdateRate_ : ℚ
  rangeMinDepth_ : ℚ
  rangeMaxDepth_ : ℚ

/-- The constructor `RealSensePlugin::RealSensePlugin()` (lines 49-57): the four
camera pointers are null and the prefix is empty; every other pointer member is
default-initialised to null and `depthMap` is the empty vector. -/
def construct (hdr : HeaderDefaults) : RealSensePlugin where
  depthCam := none
  ired1Cam := none
  ired2Cam := none
  colorCam := none
  pfx := ""
  depthUpdateRate_ := hdr.depthUpdateRate_
  colorUpdateRate_ := hdr.colorUpdateRate_
  infraredUpdateRate_ := hdr.infraredUpdateRate_
  rangeMinDepth_ := hdr.rangeMinDepth_
  rangeMaxDepth_ := hdr.rangeMaxDepth_
  depthMap := []
  depthPub := none
  ired1Pub := none
  ired2Pub := none
  colorPub := none
  newDepthFrameConn := none
  newIred1FrameConn := none
  newIred2FrameConn := none
  newColorFrameConn := none
  updateConnection := false
  advertised := []
  published := []
  cerr := []

/-! ## Depth quantisation (lines 286-302) -/

/-- The cast `(uint16_t) x` of a `double`: truncation toward zero, kept to 16
bits. -/
def castU16 (x : ℚ) : Nat :=
  Int.toNat ((if 0 ≤ x then ⌊x⌋ else ⌈x⌉) % 65536)

/-- Body of the loop of `OnNewDepthFrame` (lines 291-301): the value stored in
`depthMap[i]` for the float `v = depthDataFloat[i]`. -/
def quantizePixel (rangeMinDepth_ rangeMaxDepth_ v : ℚ) : Nat :=
  if v < rangeMinDepth_ ∨ v > rangeMaxDepth_ ∨
      v > DEPTH_SCALE_M * (UINT16_MAX : ℚ) ∨ v < 0 then
    0
  else
    castU16 (v / DEPTH_SCALE_M)

/-- One iteration of the loop of lines 288-302 at index `i`: reads
`depthDataFloat[i]` and writes `depthMap[i]`. -/
def depthLoopStep (depthDataFloat : List ℚ) (rangeMinDepth_ rangeMaxDepth_ : ℚ)
    (depthMap : List Nat) (i : Nat) : Except Fault (List Nat) :=
  match depthDataFloat[i]? with
  | none => .error .outOfBounds
  | some v =>
    if i < depthMap.length then
      .ok (depthMap.set i (quantizePixel rangeMinDepth_ rangeMaxDepth_ v))
    else
      .error .outOfBounds

/-- The loop `for (unsigned int i = 0; i < imageSize; ++i)` of lines 288-302. -/
def depthLoop (depthDataFloat : List ℚ) (rangeMinDepth_ rangeMaxDepth_ : ℚ)
    (imageSize : Nat) (depthMap : List Nat) : Except Fault (List Nat) :=
  (List.range imageSize).foldlM
    (depthLoopStep depthDataFloat rangeMinDepth_ rangeMaxDepth_) depthMap

/-! ## Marshaling (lines 250-316) -/

/-- The two bytes of a `uint16_t` in memory. -/
def u16Bytes (bo : ByteOrder) (x : Nat) : List Nat :=
  match bo with
  | .little => [x % 256, x / 256 % 256]
  | .big => [x / 256 % 256, x % 256]

/-- The bytes of the array behind `depthMap.data()`. -/
def depthMapBytes (bo : ByteOrder) (depthMap : List Nat) : List Nat :=
  depthMap.flatMap (u16Bytes bo)

/-- The call `set_data(ptr, size)`: copies `size` bytes starting at `ptr`; the
buffer behind `ptr` is `buf`. -/
def readBytes (buf : List Nat) (size : Nat) : Except Fault (List Nat) :=
  if size ≤ buf.length then .ok (buf.take size) else .error .outOfBounds

/-- The call `pub->Publish(msg)`. -/
def Publish (pub : Option PubId) (msg : ImageStamped) (s : RealSensePlugin) :
    Except Fault RealSensePlugin :=
  match pub with
  | none => .error .nullDeref
  | some q => .ok { s with published := s.published ++ [(q, msg)] }

/-- The message built by `OnNewFrame` (lines 253-270) from the camera state
`c`. -/
def imageMsg (host : Host) (c : Camera) : Except Fault ImageStamped :=
  match readBytes c.ImageData
      (c.ImageDepth * c.ImageWidth % UINT_MOD * c.ImageHeight % UINT_MOD) with
  | .error e => .error e
  | .ok payload =>
    .ok { time := host.SimTime
          width := c.ImageWidth
          height := c.ImageHeight
          pixel_format := host.ConvertPixelFormat c.ImageFormat
          step := c.ImageWidth * c.ImageDepth % UINT_MOD
          data := payload }

/-- The method `RealSensePlugin::OnNewFrame(cam, pub)` (lines 250-274). -/
def OnNewFrame (host : Host) (cam : Option CamPtr) (pub : Option PubId)
    (s : RealSensePlugin) : Except Fault RealSensePlugin :=
  match cam with
  | none => .error .nullDeref
  | some p =>
    match imageMsg host (host.cam p) with
    | .error e => .error e
    | .ok msg => Publish pub msg s

/-- The local `imageSize` of `OnNewDepthFrame` (lines 280-281). -/
def imageSize (c : Camera) : Nat :=
  c.ImageWidth * c.ImageHeight % UINT_MOD

/-- The message packed by `OnNewDepthFrame` (lines 305-312) once `depthMap` has
been rewritten. -/
def depthMsg (host : Host) (c : Camera) (depthMap : List Nat) :
    Except Fault ImageStamped :=
  match readBytes (depthMapBytes host.byteOrder depthMap)
      (2 * imageSize c % SIZE_MOD) with
  | .error e => .error e
  | .ok payload =>
    .ok { time := host.SimTime
          width := c.ImageWidth
          height := c.ImageHeight
          pixel_format := L_INT16
          step := c.ImageWidth * c.ImageDepth % UINT_MOD
          data := payload }

/-- The method `RealSensePlugin::OnNewDepthFrame()` (lines 277-316). -/
def OnNewDepthFrame (host : Host) (s : RealSensePlugin) :
    Except Fault RealSensePlugin :=
  match s.depthCam with
  | none => .error .nullDeref
  | some p =>
    let c := host.cam p
    match depthLoop c.DepthData s.rangeMinDepth_ s.rangeMaxDepth_ (imageSize c)
        s.depthMap with
    | .error e => .error e
    | .ok dm =>
      match depthMsg host c dm with
      | .error e => .error e
      | .ok msg => Publish s.depthPub msg { s with depthMap := dm }

/-! ## Sensor binding and `Load` (lines 31-46, 63-247) -/

/-- The cast `std::dynamic_pointer_cast<T>(s)`: null for a null sensor and for
a sensor that is not a `T`. -/
def dynamic_pointer_cast (T : SensorKind) (s : Option Sensor) : Option TypedSensor :=
  match s with
  | none => none
  | some sn =>
    match T with
    | .DepthCameraSensor => sn.depthCameraSensor
    | .CameraSensor => sn.cameraSensor

/-- The function template `GetAndCheckSensor<T>(smanager, name)` (lines 31-46):
the result and the lines written to `std::cerr`. -/
def GetAndCheckSensor (T : SensorKind) (host : Host) (name : String) :
    Option TypedSensor × List Diag :=
  match host.GetSensor name with
  | none => (none, [Diag.sensorNotFound name (host.GetSensors.map Sensor.Name)])
  | some sn => (dynamic_pointer_cast T (some sn), [])

/-- The configuration reads of `Load` (lines 78-83, 120-123, 132-133) that
set members of the modelled state.  Lines 81 and 83 test one key and read
another, as in the source. -/
def readSdf (sdf : Sdf) (s : RealSensePlugin) : RealSensePlugin :=
  { s with
    depthUpdateRate_ :=
      if sdf.HasElement "depthUpdateRate" then sdf.GetDouble "depthUpdateRate"
      else s.depthUpdateRate_
    colorUpdateRate_ :=
      if sdf.HasElement "colorUpdateRate" then sdf.GetDouble "colorUpdateRate_"
      else s.colorUpdateRate_
    infraredUpdateRate_ :=
      if sdf.HasElement "infraredUpdateRate" then sdf.GetDouble "infraredUpdateRate_"
      else s.infraredUpdateRate_
    rangeMinDepth_ :=
      if sdf.HasElement "rangeMinDepth" then sdf.GetFloat "rangeMinDepth"
      else s.rangeMinDepth_
    rangeMaxDepth_ :=
      if sdf.HasElement "rangeMaxDepth" then sdf.GetFloat "rangeMaxDepth"
      else s.rangeMaxDepth_
    pfx := if sdf.HasElement "prefix" then sdf.GetString "prefix" else s.pfx }

/-- The assignment `if (cs) { this->cam = cs->Camera(); }` of lines 151-169:
the new value of `this->cam`, which is null when the accessor returns null. -/
def assignIf (cs : Option TypedSensor) (cur : Option CamPtr) : Option CamPtr :=
  match cs with
  | some ts => ts.Camera
  | none => cur

/-- The check `if (!this->cam) { std::cerr << ...; abort = true; }` of lines
173-196 for one role: the line written, if any. -/
def checkCam (role : Role) (cam : Option CamPtr) : List Diag :=
  match cam with
  | none => [Diag.cameraNotFound role]
  | some _ => []

/-- The call `depthMap.resize(n)` on a `std::vector<uint16_t>`. -/
def resize (depthMap : List Nat) (n : Nat) : List Nat :=
  depthMap.take n ++ List.replicate (n - depthMap.length) 0

/-- Whether `depthMap.resize(n)` completes: shrinking or keeping the size needs
no storage, growing succeeds when the allocator says so, and fails with
`std::bad_alloc` otherwise. -/
def resizeOk (host : Host) (depthMap : List Nat) (n : Nat) : Bool :=
  decide (n ≤ depthMap.length) || host.allocOk n

/-- Dereference of a camera pointer. -/
def deref (p : Option CamPtr) : Except Fault CamPtr :=
  match p with
  | none => .error .nullDeref
  | some q => .ok q

/-- Lines 215-246 of `Load`: transport node, the four publishers, the four
frame connections and the update connection. -/
def wire (host : Host) (s : RealSensePlugin) : Except Fault RealSensePlugin :=
  let rsTopicRoot := "~/" ++ host.modelName
  let s1 : RealSensePlugin :=
    { s with
      advertised :=
        [ { topic := rsTopicRoot ++ DEPTH_CAMERA_TOPIC, queueLimit := 1,
            hzRate := s.depthUpdateRate_ },
          { topic := rsTopicRoot ++ IRED1_CAMERA_TOPIC, queueLimit := 1,
            hzRate := s.infraredUpdateRate_ },
          { topic := rsTopicRoot ++ IRED2_CAMERA_TOPIC, queueLimit := 1,
            hzRate := s.infraredUpdateRate_ },
          { topic := rsTopicRoot ++ COLOR_CAMERA_TOPIC, queueLimit := 1,
            hzRate := s.colorUpdateRate_ } ]
      depthPub := some 0
      ired1Pub := some 1
      ired2Pub := some 2
      colorPub := some 3 }
  match deref s1.depthCam, deref s1.ired1Cam, deref s1.ired2Cam, deref s1.colorCam with
  | .ok pd, .ok p1, .ok p2, .ok pc =>
    .ok { s1 with
          newDepthFrameConn :=
            some { source := pd, event := .NewDepthFrame, callback := .OnNewDepthFrame }
          newIred1FrameConn :=
            some { source := p1, event := .NewImageFrame,
                   callback := .OnNewFrame s1.ired1Cam s1.ired1Pub }
          newIred2FrameConn :=
            some { source := p2, event := .NewImageFrame,
                   callback := .OnNewFrame s1.ired2Cam s1.ired2Pub }
          newColorFrameConn :=
            some { source := pc, event := .NewImageFrame,
                   callback := .OnNewFrame s1.colorCam s1.colorPub }
          updateConnection := true }
  | _, _, _, _ => .error .nullDeref

/-- The method `RealSensePlugin::Load(_model, _sdf)` (lines 63-247). -/
def Load (names : CameraNames) (host : Host) (sdf : Sdf) (s0 : RealSensePlugin) :
    Except Fault RealSensePlugin :=
  let s := readSdf sdf s0
  -- lines 145-147: unchecked lookup of the depth sensor; the call of
  -- `DepthCamera()` dereferences the result of the cast
  match dynamic_pointer_cast .DepthCameraSensor
      (host.GetSensor (s.pfx ++ names.DEPTH_CAMERA_NAME)) with
  | none => .error .nullDeref
  | some ds =>
    -- lines 150-169: checked lookups
    let depth_cs := GetAndCheckSensor .DepthCameraSensor host (s.pfx ++ names.DEPTH_CAMERA_NAME)
    let ired1_cs := GetAndCheckSensor .CameraSensor host (s.pfx ++ names.IRED1_CAMERA_NAME)
    let ired2_cs := GetAndCheckSensor .CameraSensor host (s.pfx ++ names.IRED2_CAMERA_NAME)
    let color_cs := GetAndCheckSensor .CameraSensor host (s.pfx ++ names.COLOR_CAMERA_NAME)
    let depthCam := assignIf depth_cs.1 ds.Camera
    let ired1Cam := assignIf ired1_cs.1 s.ired1Cam
    let ired2Cam := assignIf ired2_cs.1 s.ired2Cam
    let colorCam := assignIf color_cs.1 s.colorCam
    -- lines 171-196
    let missing := checkCam .depth depthCam ++ checkCam .ired1 ired1Cam ++
      checkCam .ired2 ired2Cam ++ checkCam .color colorCam
    let s1 : RealSensePlugin :=
      { s with
        depthCam := depthCam
        ired1Cam := ired1Cam
        ired2Cam := ired2Cam
        colorCam := colorCam
        cerr := s.cerr ++ depth_cs.2 ++ ired1_cs.2 ++ ired2_cs.2 ++ color_cs.2 ++ missing }
    -- lines 197-201
    if missing ≠ [] then
      .ok { s1 with cerr := s1.cerr ++ [Diag.abortingLoading] }
    else
      -- lines 203-213
      match deref s1.depthCam with
      | .error e => .error e
      | .ok pd =>
        if resizeOk host s1.depthMap (imageSize (host.cam pd)) then
          wire host { s1 with depthMap := resize s1.depthMap (imageSize (host.cam pd)) }
        else
          .ok { s1 with cerr := s1.cerr ++ [Diag.allocationFailed] }

/-! ## Dispatch of camera events -/

/-- Runs a bound callback. -/
def runCallback (host : Host) (cb : Callback) (s : RealSensePlugin) :
    Except Fault RealSensePlugin :=
  match cb with
  | .OnNewDepthFrame => OnNewDepthFrame host s
  | .OnNewFrame cam pub => OnNewFrame host cam pub s

/-- The active frame connections of the plugin, in the order they were made. -/
def connections (s : RealSensePlugin) : List Conn :=
  [s.newDepthFrameConn, s.newIred1FrameConn, s.newIred2FrameConn,
    s.newColorFrameConn].reduceOption

/-- The camera `src` signals the event `ev`: every connection made on that event
of that camera runs its callback. -/
def notify (host : Host) (src : CamPtr) (ev : FrameEvent) (s : RealSensePlugin) :
    Except Fault RealSensePlugin :=
  (connections s).foldlM
    (fun st c =>
      if c.source = src ∧ c.event = ev then runCallback host c.callback st else .ok st)
    s

/-- The camera pointer the plugin holds for a role. -/
def camOf (s : RealSensePlugin) : Role → Option CamPtr
  | .depth => s.depthCam
  | .ired1 => s.ired1Cam
  | .ired2 => s.ired2Cam
  | .color => s.colorCam

/-- The publisher the plugin holds for a role. -/
def pubOf (s : RealSensePlugin) : Role → Option PubId
  | .depth => s.depthPub
  | .ired1 => s.ired1Pub
  | .ired2 => s.ired2Pub
  | .color => s.colorPub

/-- The frame connection the plugin holds for a role. -/
def connOf (s : RealSensePlugin) : Role → Option Conn
  | .depth => s.newDepthFrameConn
  | .ired1 => s.newIred1FrameConn
  | .ired2 => s.newIred2FrameConn
  | .color => s.newColorFrameConn

/-- The event a role's camera signals for a new frame. -/
def eventOf : Role → FrameEvent
  | .depth => .NewDepthFrame
  | _ => .NewImageFrame

/-- The messages handed to `Publish` on publisher `q`, oldest first. -/
def publishedOn (s : RealSensePlugin) (q : PubId) : List ImageStamped :=
  (s.published.filter (fun e => e.1 = q)).map Prod.snd

/-- The frame callback that `Load` bound for role `r` runs once, the simulator
being in state `host`; nothing runs when the role has no connection. -/
def fire (host : Host) (r : Role) (s : RealSensePlugin) : Except Fault RealSensePlugin :=
  match connOf s r with
  | none => .ok s
  | some c => runCallback host c.callback s

/-- A sequence of frame callbacks, each with the simulator state it runs in. -/
def run (steps : List (Host × Role)) (s : RealSensePlugin) :
    Except Fault RealSensePlugin :=
  steps.foldlM (fun st e => fire e.1 e.2 st) s

/-- The name `prefix + NAME` looked up by `Load` on a freshly constructed
plugin. -/
def lookupName (sdf : Sdf) (hdr : HeaderDefaults) (name : String) : String :=
  (readSdf sdf (construct hdr)).pfx ++ name

/-- The state `Load` leaves a freshly constructed plugin in when the four
cameras `pd`, `p1`, `p2`, `pc` (depth, infrared 1, infrared 2, color) are bound
and `depthMap` has been resized. -/
def loadedState (host : Host) (sdf : Sdf) (hdr : HeaderDefaults)
    (pd p1 p2 pc : CamPtr) : RealSensePlugin :=
  let s := readSdf sdf (construct hdr)
  let rsTopicRoot := "~/" ++ host.modelName
  { s with
    depthCam := some pd
    ired1Cam := some p1
    ired2Cam := some p2
    colorCam := some pc
    depthMap := List.replicate (imageSize (host.cam pd)) 0
    advertised :=
      [ { topic := rsTopicRoot ++ DEPTH_CAMERA_TOPIC, queueLimit := 1,
          hzRate := s.depthUpdateRate_ },
        { topic := rsTopicRoot ++ IRED1_CAMERA_TOPIC, queueLimit := 1,
          hzRate := s.infraredUpdateRate_ },
        { topic := rsTopicRoot ++ IRED2_CAMERA_TOPIC, queueLimit := 1,
          hzRate := s.infraredUpdateRate_ },
        { topic := rsTopicRoot ++ COLOR_CAMERA_TOPIC, queueLimit := 1,
          hzRate := s.colorUpdateRate_ } ]
    depthPub := some 0
    ired1Pub := some 1
    ired2Pub := some 2
    colorPub := some 3
    newDepthFrameConn :=
      some { source := pd, event := .NewDepthFrame, callback := .OnNewDepthFrame }
    newIred1FrameConn :=
      some { source := p1, event := .NewImageFrame,
             callback := .OnNewFrame (some p1) (some 1) }
    newIred2FrameConn :=
      some { source := p2, event := .NewImageFrame,
             callback := .OnNewFrame (some p2) (some 2) }
    newColorFrameConn :=
      some { source := pc, event := .NewImageFrame,
             callback := .OnNewFrame (some pc) (some 3) }
    updateConnection := true }

/-- A role is armed when its frame connection is active. -/
def Armed (s : RealSensePlugin) (r : Role) : Prop :=
  (connOf s r).isSome = true

instance (s : RealSensePlugin) (r : Role) : Decidable (Armed s r) := by
  unfold Armed
  infer_instance

/-- No buffer was allocated, no publisher advertised and no frame connection
made. -/
def Unarmed (s : RealSensePlugin) : Prop :=
  s.depthMap = [] ∧ s.advertised = [] ∧ connections s = [] ∧
    s.updateConnection = false

instance (s : RealSensePlugin) : Decidable (Unarmed s) := by
  unfold Unarmed
  infer_instance

/-- The camera `p` of role `r` holds the frame its callback reads: for the depth
role `imageSize` floats, with `depthMap` long enough to take them; for the
other roles the number of bytes computed at lines 269-270. -/
def FrameReady (host : Host) (s : RealSensePlugin) (r : Role) (p : CamPtr) : Prop :=
  match r with
  | .depth =>
    imageSize (host.cam p) ≤ (host.cam p).DepthData.length ∧
      imageSize (host.cam p) ≤ s.depthMap.length
  | _ =>
    (host.cam p).ImageDepth * (host.cam p).ImageWidth % UINT_MOD *
        (host.cam p).ImageHeight % UINT_MOD ≤ (host.cam p).ImageData.length

instance (host : Host) (s : RealSensePlugin) (r : Role) (p : CamPtr) :
    Decidable (FrameReady host s r p) := by
  unfold FrameReady
  cases r <;> infer_instance

/-- The format tag of the camera `c` is the pixel format `f`: `ImageFormat()`
returns the name of `f`, and the image library converts that name to `f`. -/
def FormatTag (host : Host) (c : Camera) (f : PixelFormat) : Prop :=
  c.ImageFormat = host.PixelFormatNames f ∧
    host.ConvertPixelFormat (host.PixelFormatNames f) = f

instance (host : Host) (c : Camera) (f : PixelFormat) : Decidable (FormatTag host c f) := by
  unfold FormatTag
  infer_instance

/-- The state `t` has the depth pointers, the four connections and the
`depthMap` length of `s`. -/
def SameWiring (s t : RealSensePlugin) : Prop :=
  t.depthCam = s.depthCam ∧ t.depthPub = s.depthPub ∧
    t.newDepthFrameConn = s.newDepthFrameConn ∧
    t.newIred1FrameConn = s.newIred1FrameConn ∧
    t.newIred2FrameConn = s.newIred2FrameConn ∧
    t.newColorFrameConn = s.newColorFrameConn ∧
    t.depthMap.length = s.depthMap.length

instance (s t : RealSensePlugin) : Decidable (SameWiring s t) := by
  unfold SameWiring
  infer_instance

/-! ## Concrete simulator states used in the examples -/

/-- A simulator with one sensor per role, named `depth`, `ired1`, `ired2`,
`color`, owning the cameras `0`, `1`, `2`, `3`. -/
def demoHost (depthC ired1C ired2C colorC : Camera) : Host where
  GetSensor := fun n =>
    if n = "depth" then some ⟨"depth", some ⟨some 0⟩, none⟩
    else if n = "ired1" then some ⟨"ired1", none, some ⟨some 1⟩⟩
    else if n = "ired2" then some ⟨"ired2", none, some ⟨some 2⟩⟩
    else if n = "color" then some ⟨"color", none, some ⟨some 3⟩⟩
    else none
  GetSensors :=
    [⟨"depth", some ⟨some 0⟩, none⟩, ⟨"ired1", none, some ⟨some 1⟩⟩,
      ⟨"ired2", none, some ⟨some 2⟩⟩, ⟨"color", none, some ⟨some 3⟩⟩]
  cam := fun p =>
    match p with
    | 0 => depthC
    | 1 => ired1C
    | 2 => ired2C
    | _ => colorC
  SimTime := 7
  worldName := "default"
  modelName := "rs"
  allocOk := fun _ => true
  ConvertPixelFormat := fun f =>
    if f = "L_INT8" then 1 else if f = "RGB_INT8" then 3 else 0
  PixelFormatNames := fun f =>
    if f = 1 then "L_INT8" else if f = 3 then "RGB_INT8" else "UNKNOWN_PIXEL_FORMAT"
  byteOrder := .little

/-- The simulator of `demoHost` without the depth sensor. -/
def noDepthHost (c : Camera) : Host :=
  { demoHost c c c c with
    GetSensor := fun n =>
      if n = "ired1" then some ⟨"ired1", none, some ⟨some 1⟩⟩
      else if n = "ired2" then some ⟨"ired2", none, some ⟨some 2⟩⟩
      else if n = "color" then some ⟨"color", none, some ⟨some 3⟩⟩
      else none
    GetSensors :=
      [⟨"ired1", none, some ⟨some 1⟩⟩, ⟨"ired2", none, some ⟨some 2⟩⟩,
        ⟨"color", none, some ⟨some 3⟩⟩] }

/-- The simulator of `demoHost` in which the sensor `ired1` is a camera sensor
whose `Camera()` is null. -/
def nullCameraHost (c : Camera) : Host :=
  { demoHost c c c c with
    GetSensor := fun n =>
      if n = "depth" then some ⟨"depth", some ⟨some 0⟩, none⟩
      else if n = "ired1" then some ⟨"ired1", none, some ⟨none⟩⟩
      else if n = "ired2" then some ⟨"ired2", none, some ⟨some 2⟩⟩
      else if n = "color" then some ⟨"color", none, some ⟨some 3⟩⟩
      else none
    GetSensors :=
      [⟨"depth", some ⟨some 0⟩, none⟩, ⟨"ired1", none, some ⟨none⟩⟩,
        ⟨"ired2", none, some ⟨some 2⟩⟩, ⟨"color", none, some ⟨some 3⟩⟩] }

/-- A configuration that sets the depth range to `[0.1, 5.0]` and nothing
else. -/
def demoSdf : Sdf where
  HasElement := fun k => k = "rangeMinDepth" || k = "rangeMaxDepth"
  GetDouble := fun _ => 0
  GetFloat := fun k => if k = "rangeMinDepth" then 1 / 10 else 5
  GetString := fun _ => ""

/-- Header defaults for the examples. -/
def demoHdr : HeaderDefaults := ⟨60, 60, 60, 1 / 5, 10⟩

/-- Sensor names for the examples. -/
def demoNames : CameraNames := ⟨"depth", "color", "ired1", "ired2"⟩

/-- A 1x1 color camera with three bytes per pixel holding the frame
`[10, 20, 30]`. -/
def colorCam1x1 : Camera := ⟨1, 1, 3, "RGB_INT8", [10, 20, 30], []⟩

/-- A 2x1 depth camera whose handle reports `d` bytes per pixel, holding the
frame `[0.05, 2.5]`. -/
def depthCam2x1 (d : Nat) : Camera := ⟨2, 1, d, "R_FLOAT32", [], [1 / 20, 5 / 2]⟩

/-- A zero-width depth camera. -/
def depthCam0x5 : Camera := ⟨0, 5, 4, "R_FLOAT32", [], []⟩

/-- A 65536x65536 depth camera. -/
def depthCamHuge : Camera := ⟨65536, 65536, 4, "R_FLOAT32", [], []⟩

/-- A 2147483648x2 depth camera. -/
def depthCamWide : Camera := ⟨2147483648, 2, 4, "R_FLOAT32", [], []⟩

/-- A 65536x65536 camera with one byte per pixel whose buffer holds all of its
`2^32` bytes. -/
def irCamHuge : Camera :=
  ⟨65536, 65536, 1, "L_INT8", List.replicate 4294967296 0, []⟩

/-- The plugin state of the depth examples: camera `0` and publisher `0` are
bound, the range is `[0.1, 5.0]` and `depthMap` has two entries. -/
def demoDepthState : RealSensePlugin :=
  { construct demoHdr with
    depthCam := some 0
    depthPub := some 0
    rangeMinDepth_ := 1 / 10
    rangeMaxDepth_ := 5
    depthMap := [0, 0] }

/-! ## The depth loop -/

theorem set_append_drop (A dm : List Nat) (n x : Nat)
    (hA : A.length = n) (hn : n < dm.length) :
    (A ++ dm.drop n).set n x = (A ++ [x]) ++ dm.drop (n + 1) := by
  have h2 : dm.drop n = dm[n] :: dm.drop (n + 1) := List.drop_eq_getElem_cons hn
  rw [List.set_append_right _ _ (by omega), hA, Nat.sub_self, h2]
  simp only [List.set_cons_zero, List.append_assoc, List.singleton_append]

/-- With `n` floats to read and `n` entries to write, the loop completes and
rewrites exactly the first `n` entries of `depthMap`, pixel by pixel. -/
theorem depthLoop_eq (data : List ℚ) (mn mx : ℚ) (dm : List Nat) :
    ∀ n, n ≤ data.length → n ≤ dm.length →
      depthLoop data mn mx n dm =
        .ok ((data.take n).map (quantizePixel mn mx) ++ dm.drop n) := by
  intro n
  induction n with
  | zero => intro _ _; simp [depthLoop, pure, Except.pure]
  | succ n ih =>
    intro hd hm
    have ih1 := ih (by omega) (by omega)
    unfold depthLoop at ih1 ⊢
    rw [List.range_succ, List.foldlM_append, ih1]
    have hv : data[n]? = some (data[n]) := List.getElem?_eq_getElem (by omega)
    have h1 : ((data.take n).map (quantizePixel mn mx)).length = n := by simp; omega
    have hlen : n < ((data.take n).map (quantizePixel mn mx) ++ dm.drop n).length := by
      simp; omega
    have h3 : (data.take (n + 1)).map (quantizePixel mn mx) =
        (data.take n).map (quantizePixel mn mx) ++ [quantizePixel mn mx data[n]] := by
      rw [List.take_succ, hv]
      simp only [Option.toList_some, List.map_append, List.map_cons, List.map_nil]
    simp only [bind, Except.bind, List.foldlM_cons, List.foldlM_nil, depthLoopStep, hv,
      pure, Except.pure]
    rw [if_pos hlen, set_append_drop _ _ _ _ h1 (by omega), h3]

/-- The loop never changes the length of `depthMap`. -/
theorem depthLoop_length (data : List ℚ) (mn mx : ℚ) :
    ∀ n dm dm1, depthLoop data mn mx n dm = .ok dm1 → dm1.length = dm.length := by
  intro n
  induction n with
  | zero =>
    intro dm dm1 h
    simp [depthLoop, pure, Except.pure] at h
    rw [← h]
  | succ n ih =>
    intro dm dm1 h
    unfold depthLoop at h ih
    rw [List.range_succ, List.foldlM_append] at h
    cases hq : List.foldlM (depthLoopStep data mn mx) dm (List.range n) with
    | error e => rw [hq] at h; simp [bind, Except.bind] at h
    | ok dm2 =>
      rw [hq] at h
      have hl := ih dm dm2 hq
      simp only [bind, Except.bind, List.foldlM_cons, List.foldlM_nil, depthLoopStep,
        pure, Except.pure] at h
      cases hv : data[n]? with
      | none => rw [hv] at h; simp at h
      | some v =>
        rw [hv] at h
        by_cases hlt : n < dm2.length
        · simp only [if_pos hlt] at h
          cases h
          simp [hl]
        · simp [if_neg hlt] at h

/-- The loop completes only if every index it uses is inside both buffers. -/
theorem depthLoop_ok_bounds (data : List ℚ) (mn mx : ℚ) :
    ∀ n dm dm1, depthLoop data mn mx n dm = .ok dm1 →
      n ≤ data.length ∧ n ≤ dm.length := by
  intro n
  induction n with
  | zero => intro dm dm1 _; simp
  | succ n ih =>
    intro dm dm1 h
    have h0 := h
    unfold depthLoop at h
    rw [List.range_succ, List.foldlM_append] at h
    cases hq : List.foldlM (depthLoopStep data mn mx) dm (List.range n) with
    | error e => rw [hq] at h; simp [bind, Except.bind] at h
    | ok dm2 =>
      rw [hq] at h
      have hl := depthLoop_length data mn mx n dm dm2 hq
      simp only [bind, Except.bind, List.foldlM_cons, List.foldlM_nil, depthLoopStep,
        pure, Except.pure] at h
      cases hv : data[n]? with
      | none => rw [hv] at h; simp at h
      | some v =>
        rw [hv] at h
        have hd : n < data.length := by
          by_contra hc
          rw [List.getElem?_eq_none (by omega)] at hv
          cases hv
        by_cases hlt : n < dm2.length
        · constructor <;> omega
        · simp [if_neg hlt] at h

/-! ## The quantiser -/

theorem castU16_lt (x : ℚ) : castU16 x < 65536 := by
  unfold castU16
  have h := Int.emod_lt_of_pos (if 0 ≤ x then ⌊x⌋ else ⌈x⌉) (by norm_num : (0 : ℤ) < 65536)
  have h0 := Int.emod_nonneg (if 0 ≤ x then ⌊x⌋ else ⌈x⌉) (by norm_num : (65536 : ℤ) ≠ 0)
  omega

theorem quantizePixel_lt (mn mx v : ℚ) : quantizePixel mn mx v < 65536 := by
  unfold quantizePixel
  split
  · norm_num
  · exact castU16_lt _

theorem castU16_eq_floor (x : ℚ) (h0 : 0 ≤ x) (h1 : x ≤ 65535) :
    castU16 x = ⌊x⌋₊ ∧ ⌊x⌋₊ ≤ 65535 := by
  have hf0 : 0 ≤ ⌊x⌋ := Int.floor_nonneg.mpr h0
  have hf1 : ⌊x⌋ ≤ 65535 := by
    have : (⌊x⌋ : ℚ) ≤ 65535 := le_trans (Int.floor_le x) h1
    exact_mod_cast this
  have hn : ⌊x⌋₊ = Int.toNat ⌊x⌋ := (Int.floor_toNat x).symm
  unfold castU16
  rw [if_pos h0, hn]
  constructor
  · rw [Int.emod_eq_of_lt hf0 (by omega)]
  · omega

theorem quantizePixel_in_range (mn mx v : ℚ) (h1 : mn ≤ v) (h2 : v ≤ mx) (h3 : 0 ≤ v)
    (h4 : v ≤ 1 / 1000 * 65535) :
    quantizePixel mn mx v = ⌊v / (1 / 1000)⌋₊ ∧ ⌊v / (1 / 1000)⌋₊ ≤ 65535 := by
  have hc : ¬ (v < mn ∨ v > mx ∨ v > DEPTH_SCALE_M * (UINT16_MAX : ℚ) ∨ v < 0) := by
    simp only [DEPTH_SCALE_M, UINT16_MAX]
    push_neg
    refine ⟨h1, h2, ?_, h3⟩
    norm_num at h4 ⊢
    linarith
  unfold quantizePixel
  rw [if_neg hc]
  simp only [DEPTH_SCALE_M]
  apply castU16_eq_floor
  · positivity
  · rw [div_le_iff₀ (by norm_num)]
    linarith

theorem quantizePixel_out_of_range (mn mx v : ℚ)
    (h : v < mn ∨ v > mx ∨ v < 0 ∨ v > 1 / 1000 * 65535) :
    quantizePixel mn mx v = 0 := by
  have hc : v < mn ∨ v > mx ∨ v > DEPTH_SCALE_M * (UINT16_MAX : ℚ) ∨ v < 0 := by
    simp only [DEPTH_SCALE_M, UINT16_MAX]
    rcases h with h | h | h | h
    · exact Or.inl h
    · exact Or.inr (Or.inl h)
    · exact Or.inr (Or.inr (Or.inr h))
    · refine Or.inr (Or.inr (Or.inl ?_))
      norm_num at h ⊢
      linarith
  unfold quantizePixel
  rw [if_pos hc]

/-! ## The depth callback -/

theorem depthMapBytes_length (bo : ByteOrder) (dm : List Nat) :
    (depthMapBytes bo dm).length = 2 * dm.length := by
  induction dm with
  | nil => rfl
  | cons x xs ih =>
    have hx : (u16Bytes bo x).length = 2 := by cases bo <;> rfl
    simp only [depthMapBytes, List.flatMap_cons, List.length_append, List.length_cons] at ih ⊢
    rw [ih, hx]
    omega

theorem depthMapBytes_append (bo : ByteOrder) (A B : List Nat) :
    depthMapBytes bo (A ++ B) = depthMapBytes bo A ++ depthMapBytes bo B := by
  simp [depthMapBytes]

theorem depthMapBytes_take (bo : ByteOrder) (A B : List Nat) :
    (depthMapBytes bo (A ++ B)).take (2 * A.length) = depthMapBytes bo A := by
  rw [depthMapBytes_append, ← depthMapBytes_length bo A, List.take_left']
  rfl

theorem imageSize_lt (c : Camera) : imageSize c < UINT_MOD :=
  Nat.mod_lt _ (by norm_num [UINT_MOD])

theorem depthLittleEndian (dm : List Nat) (h : ∀ x ∈ dm, x < 65536) :
    depthMapBytes .little dm = dm.flatMap (fun x => [x % 256, x / 256]) := by
  induction dm with
  | nil => rfl
  | cons x xs ih =>
    have hx : x < 65536 := h x (List.mem_cons_self _ _)
    have hxs := ih (fun y hy => h y (List.mem_cons_of_mem _ hy))
    simp only [depthMapBytes, List.flatMap_cons] at hxs ⊢
    rw [hxs]
    have : x / 256 % 256 = x / 256 := Nat.mod_eq_of_lt (by omega)
    simp [u16Bytes, this]

/-- The depth callback on a wired plugin whose camera supplies `imageSize`
floats and whose `depthMap` has room for them: it completes, rewrites the
first `imageSize` entries of `depthMap` and publishes one message. -/
theorem OnNewDepthFrame_eq (host : Host) (s : RealSensePlugin) (p : CamPtr) (q : PubId)
    (hcam : s.depthCam = some p) (hpub : s.depthPub = some q)
    (hdata : imageSize (host.cam p) ≤ (host.cam p).DepthData.length)
    (hmap : imageSize (host.cam p) ≤ s.depthMap.length) :
    OnNewDepthFrame host s =
      .ok { s with
            depthMap :=
              ((host.cam p).DepthData.take (imageSize (host.cam p))).map
                  (quantizePixel s.rangeMinDepth_ s.rangeMaxDepth_) ++
                s.depthMap.drop (imageSize (host.cam p))
            published := s.published ++
              [(q, { time := host.SimTime
                     width := (host.cam p).ImageWidth
                     height := (host.cam p).ImageHeight
                     pixel_format := L_INT16
                     step := (host.cam p).ImageWidth * (host.cam p).ImageDepth % UINT_MOD
                     data := depthMapBytes host.byteOrder
                       (((host.cam p).DepthData.take (imageSize (host.cam p))).map
                         (quantizePixel s.rangeMinDepth_ s.rangeMaxDepth_)) })] } := by
  have hlt := imageSize_lt (host.cam p)
  have hA : (((host.cam p).DepthData.take (imageSize (host.cam p))).map
      (quantizePixel s.rangeMinDepth_ s.rangeMaxDepth_)).length = imageSize (host.cam p) := by
    simp; omega
  have hsz : 2 * imageSize (host.cam p) % SIZE_MOD = 2 * imageSize (host.cam p) := by
    apply Nat.mod_eq_of_lt
    simp only [UINT_MOD, SIZE_MOD] at hlt ⊢
    omega
  have hbytes : 2 * imageSize (host.cam p) ≤
      (depthMapBytes host.byteOrder
        (((host.cam p).DepthData.take (imageSize (host.cam p))).map
            (quantizePixel s.rangeMinDepth_ s.rangeMaxDepth_) ++
          s.depthMap.drop (imageSize (host.cam p)))).length := by
    rw [depthMapBytes_length, List.length_append, hA, List.length_drop]
    omega
  have htake := depthMapBytes_take host.byteOrder
    (((host.cam p).DepthData.take (imageSize (host.cam p))).map
      (quantizePixel s.rangeMinDepth_ s.rangeMaxDepth_))
    (s.depthMap.drop (imageSize (host.cam p)))
  rw [hA] at htake
  unfold OnNewDepthFrame
  simp only [hcam, depthLoop_eq _ _ _ _ _ hdata hmap, depthMsg, readBytes, hsz, hbytes,
    if_true, htake, Publish, hpub]

/-! ## Claims on the depth callback -/

theorem quantizePixel_demo_far : quantizePixel (1 / 10) 5 (5 / 2) = 2500 := by
  simp [quantizePixel, castU16, DEPTH_SCALE_M, UINT16_MAX]
  norm_num
  rfl

theorem quantizePixel_demo_near : quantizePixel (1 / 10) 5 (1 / 20) = 0 := by
  simp [quantizePixel, castU16, DEPTH_SCALE_M, UINT16_MAX]
  norm_num

/-- C1: on a wired plugin whose depth camera supplies the frame, a pixel value
`v` with `rangeMinDepth_ ≤ v ≤ rangeMaxDepth_`, `0 ≤ v` and
`v ≤ 0.001 * 65535` is stored by `OnNewDepthFrame` as `floor (v / 0.001)`, a
value of at most 65535. -/
theorem depth_pixel_in_range (host : Host) (s : RealSensePlugin) (p : CamPtr) (q : PubId)
    (i : Nat) (v : ℚ)
    (hcam : s.depthCam = some p) (hpub : s.depthPub = some q)
    (hdata : imageSize (host.cam p) ≤ (host.cam p).DepthData.length)
    (hmap : imageSize (host.cam p) ≤ s.depthMap.length)
    (hi : i < imageSize (host.cam p))
    (hv : (host.cam p).DepthData[i]? = some v)
    (h1 : s.rangeMinDepth_ ≤ v) (h2 : v ≤ s.rangeMaxDepth_) (h3 : 0 ≤ v)
    (h4 : v ≤ 1 / 1000 * 65535) :
    ∃ s1, OnNewDepthFrame host s = .ok s1 ∧
      s1.depthMap[i]? = some ⌊v / (1 / 1000)⌋₊ ∧ ⌊v / (1 / 1000)⌋₊ ≤ 65535 := by
  refine ⟨_, OnNewDepthFrame_eq host s p q hcam hpub hdata hmap, ?_, ?_⟩
  · have hq := (quantizePixel_in_range s.rangeMinDepth_ s.rangeMaxDepth_ v h1 h2 h3 h4).1
    simp only
    rw [List.getElem?_append_left (by simp; omega), List.getElem?_map,
      List.getElem?_take_of_lt hi, hv, Option.map_some', hq]
  · exact (quantizePixel_in_range s.rangeMinDepth_ s.rangeMaxDepth_ v h1 h2 h3 h4).2

/-- C1 at the 2x1 camera with range `[0.1, 5.0]`: the pixel `2.5` is stored as
`2500`. -/
theorem depth_pixel_in_range_witness :
    ∃ s1, OnNewDepthFrame (demoHost (depthCam2x1 2) colorCam1x1 colorCam1x1 colorCam1x1)
        demoDepthState = .ok s1 ∧ s1.depthMap[1]? = some 2500 := by
  obtain ⟨s1, h1, h2, _⟩ :=
    depth_pixel_in_range (demoHost (depthCam2x1 2) colorCam1x1 colorCam1x1 colorCam1x1)
      demoDepthState 0 0 1 (5 / 2) rfl rfl (by decide) (by decide) (by decide) rfl
      (by norm_num [demoDepthState]) (by norm_num [demoDepthState]) (by norm_num)
      (by norm_num)
  refine ⟨s1, h1, ?_⟩
  rw [h2]
  norm_num

/-- C2: on a wired plugin whose depth camera supplies the frame, a pixel value
`v` with `v < rangeMinDepth_`, `v > rangeMaxDepth_`, `v < 0` or
`v > 0.001 * 65535` is stored by `OnNewDepthFrame` as `0`, and the callback
completes. -/
theorem depth_pixel_out_of_range (host : Host) (s : RealSensePlugin) (p : CamPtr)
    (q : PubId) (i : Nat) (v : ℚ)
    (hcam : s.depthCam = some p) (hpub : s.depthPub = some q)
    (hdata : imageSize (host.cam p) ≤ (host.cam p).DepthData.length)
    (hmap : imageSize (host.cam p) ≤ s.depthMap.length)
    (hi : i < imageSize (host.cam p))
    (hv : (host.cam p).DepthData[i]? = some v)
    (hout : v < s.rangeMinDepth_ ∨ v > s.rangeMaxDepth_ ∨ v < 0 ∨ v > 1 / 1000 * 65535) :
    ∃ s1, OnNewDepthFrame host s = .ok s1 ∧ s1.depthMap[i]? = some 0 := by
  refine ⟨_, OnNewDepthFrame_eq host s p q hcam hpub hdata hmap, ?_⟩
  have hq := quantizePixel_out_of_range s.rangeMinDepth_ s.rangeMaxDepth_ v hout
  simp only
  rw [List.getElem?_append_left (by simp; omega), List.getElem?_map,
    List.getElem?_take_of_lt hi, hv, Option.map_some', hq]

/-- C2 at the 2x1 camera with range `[0.1, 5.0]`: the pixel `0.05` is stored as
`0`. -/
theorem depth_pixel_out_of_range_witness :
    ∃ s1, OnNewDepthFrame (demoHost (depthCam2x1 2) colorCam1x1 colorCam1x1 colorCam1x1)
        demoDepthState = .ok s1 ∧ s1.depthMap[0]? = some 0 :=
  depth_pixel_out_of_range (demoHost (depthCam2x1 2) colorCam1x1 colorCam1x1 colorCam1x1)
    demoDepthState 0 0 0 (1 / 20) rfl rfl (by decide) (by decide) (by decide) rfl
    (Or.inl (by norm_num [demoDepthState]))

/-- C3: for a depth camera of width `w` and height `h` with `w * h < 2^32`, a
frame of `w * h` floats and a `depthMap` of length `w * h`, on a little-endian
target, `OnNewDepthFrame` publishes one message whose payload is the quantised
frame in pixel order, two bytes per value, low byte first; the payload has
`2 * w * h` bytes and the pixel format is `L_INT16` whatever the camera
reports. -/
theorem depth_message_payload (host : Host) (s : RealSensePlugin) (p : CamPtr) (q : PubId)
    (w h : Nat)
    (hcam : s.depthCam = some p) (hpub : s.depthPub = some q)
    (hw : (host.cam p).ImageWidth = w) (hh : (host.cam p).ImageHeight = h)
    (hsz : w * h < 2 ^ 32)
    (hdata : w * h ≤ (host.cam p).DepthData.length)
    (hmap : s.depthMap.length = w * h)
    (hbo : host.byteOrder = .little) :
    ∃ s1 msg, OnNewDepthFrame host s = .ok s1 ∧
      s1.published = s.published ++ [(q, msg)] ∧
      s1.depthMap = ((host.cam p).DepthData.take (w * h)).map
        (quantizePixel s.rangeMinDepth_ s.rangeMaxDepth_) ∧
      msg.data = s1.depthMap.flatMap (fun x => [x % 256, x / 256]) ∧
      msg.data.length = 2 * w * h ∧
      msg.pixel_format = L_INT16 := by
  have hn : imageSize (host.cam p) = w * h := by
    unfold imageSize
    rw [hw, hh]
    exact Nat.mod_eq_of_lt (by simpa [UINT_MOD] using hsz)
  have hq : ∀ x ∈ ((host.cam p).DepthData.take (w * h)).map
      (quantizePixel s.rangeMinDepth_ s.rangeMaxDepth_), x < 65536 := by
    intro x hx
    obtain ⟨v, _, rfl⟩ := List.mem_map.mp hx
    exact quantizePixel_lt _ _ _
  have hlen : (((host.cam p).DepthData.take (w * h)).map
      (quantizePixel s.rangeMinDepth_ s.rangeMaxDepth_)).length = w * h := by
    simp; omega
  refine ⟨_, _, OnNewDepthFrame_eq host s p q hcam hpub (by omega) (by omega), rfl, ?_, ?_,
    ?_, rfl⟩
  · simp only [hn]
    rw [List.drop_of_length_le (by omega), List.append_nil]
  · simp only [hn, hbo]
    rw [List.drop_of_length_le (by omega), List.append_nil]
    exact depthLittleEndian _ hq
  · simp only [hn]
    rw [depthMapBytes_length, hlen]
    ring

/-- C3 at the 2x1 camera with range `[0.1, 5.0]` and frame `[0.05, 2.5]`: the
payload is `[0x00, 0x00, 0xC4, 0x09]`. -/
theorem depth_message_payload_witness :
    ∃ s1 msg,
      OnNewDepthFrame (demoHost (depthCam2x1 2) colorCam1x1 colorCam1x1 colorCam1x1)
        demoDepthState = .ok s1 ∧
      s1.published = [(0, msg)] ∧ s1.depthMap = [0, 2500] ∧
      msg.data = [0x00, 0x00, 0xC4, 0x09] ∧ msg.pixel_format = L_INT16 := by
  obtain ⟨s1, msg, h1, h2, h3, h4, _, h6⟩ :=
    depth_message_payload (demoHost (depthCam2x1 2) colorCam1x1 colorCam1x1 colorCam1x1)
      demoDepthState 0 0 2 1 rfl rfl rfl rfl (by norm_num) (by decide) rfl rfl
  have hm : s1.depthMap = [0, 2500] := by
    rw [h3]
    show List.map (quantizePixel (1 / 10) 5) [1 / 20, 5 / 2] = [0, 2500]
    simp only [List.map, quantizePixel_demo_far, quantizePixel_demo_near]
  refine ⟨s1, msg, h1, ?_, hm, ?_, h6⟩
  · simpa [demoDepthState, construct] using h2
  · rw [h4, hm]
    rfl

/-- C5: with a 2x1 depth camera whose handle reports 4 bytes per pixel, the
message published by `OnNewDepthFrame` has row stride `2 * 4 = 8`, not
`2 * 2 = 4`, while its payload has 4 bytes and its pixel format is `L_INT16`. -/
theorem depth_step_follows_handle_depth :
    ∃ s1 msg,
      OnNewDepthFrame (demoHost (depthCam2x1 4) colorCam1x1 colorCam1x1 colorCam1x1)
        demoDepthState = .ok s1 ∧
      s1.published = [(0, msg)] ∧ msg.width = 2 ∧ msg.height = 1 ∧
      msg.pixel_format = L_INT16 ∧ msg.data.length = 4 ∧
      msg.step = 8 ∧ msg.step ≠ msg.width * 2 ∧
      msg.step * msg.height ≠ msg.data.length := by
  have hq : List.map (quantizePixel (1 / 10) 5) [1 / 20, 5 / 2] = [0, 2500] := by
    simp only [List.map, quantizePixel_demo_far, quantizePixel_demo_near]
  have h := OnNewDepthFrame_eq (demoHost (depthCam2x1 4) colorCam1x1 colorCam1x1 colorCam1x1)
    demoDepthState 0 0 rfl rfl (by decide) (by decide)
  refine ⟨_, ⟨7, 2, 1, L_INT16, 8, [0, 0, 196, 9]⟩, h, ?_, rfl, rfl, rfl, rfl, rfl,
    by decide, by decide⟩
  show [(0, (⟨7, 2, 1, L_INT16, 2 * 4 % UINT_MOD,
    depthMapBytes .little (List.map (quantizePixel (1 / 10) 5) [1 / 20, 5 / 2])⟩ :
      ImageStamped))] = _
  rw [hq]
  rfl

/-! ## Claims on the image callback -/

/-- The message of `OnNewFrame` when neither product of lines 267-270 wraps. -/
theorem imageMsg_eq (host : Host) (c : Camera)
    (hstep : c.ImageWidth * c.ImageDepth < 2 ^ 32)
    (hsize : c.ImageDepth * c.ImageWidth * c.ImageHeight < 2 ^ 32)
    (hbuf : c.ImageDepth * c.ImageWidth * c.ImageHeight ≤ c.ImageData.length) :
    imageMsg host c =
      .ok { time := host.SimTime
            width := c.ImageWidth
            height := c.ImageHeight
            pixel_format := host.ConvertPixelFormat c.ImageFormat
            step := c.ImageWidth * c.ImageDepth
            data := c.ImageData.take (c.ImageDepth * c.ImageWidth * c.ImageHeight) } := by
  have h1 : c.ImageWidth * c.ImageDepth % UINT_MOD = c.ImageWidth * c.ImageDepth :=
    Nat.mod_eq_of_lt (by simpa [UINT_MOD] using hstep)
  have h2 : c.ImageDepth * c.ImageWidth % UINT_MOD = c.ImageDepth * c.ImageWidth := by
    rw [Nat.mul_comm, h1, Nat.mul_comm]
  have h3 : c.ImageDepth * c.ImageWidth * c.ImageHeight % UINT_MOD =
      c.ImageDepth * c.ImageWidth * c.ImageHeight :=
    Nat.mod_eq_of_lt (by simpa [UINT_MOD] using hsize)
  unfold imageMsg readBytes
  rw [h1, h2, h3, if_pos hbuf]

/-- The message of `OnNewFrame` when the byte count of lines 269-270 wraps to
zero: the payload is empty. -/
theorem imageMsg_wrapped (host : Host) (c : Camera)
    (h0 : c.ImageDepth * c.ImageWidth % UINT_MOD * c.ImageHeight % UINT_MOD = 0) :
    imageMsg host c =
      .ok { time := host.SimTime
            width := c.ImageWidth
            height := c.ImageHeight
            pixel_format := host.ConvertPixelFormat c.ImageFormat
            step := c.ImageWidth * c.ImageDepth % UINT_MOD
            data := [] } := by
  unfold imageMsg readBytes
  rw [h0, if_pos (Nat.zero_le _), List.take_zero]

/-- The callback `OnNewFrame` when the byte count of lines 269-270 wraps to
zero. -/
theorem OnNewFrame_wrapped (host : Host) (s : RealSensePlugin) (p : CamPtr) (q : PubId)
    (h0 : (host.cam p).ImageDepth * (host.cam p).ImageWidth % UINT_MOD *
      (host.cam p).ImageHeight % UINT_MOD = 0) :
    OnNewFrame host (some p) (some q) s =
      .ok { s with
            published := s.published ++
              [(q, { time := host.SimTime
                     width := (host.cam p).ImageWidth
                     height := (host.cam p).ImageHeight
                     pixel_format := host.ConvertPixelFormat (host.cam p).ImageFormat
                     step := (host.cam p).ImageWidth * (host.cam p).ImageDepth % UINT_MOD
                     data := [] })] } := by
  unfold OnNewFrame
  simp only [imageMsg_wrapped host (host.cam p) h0, Publish]

/-- C4, as the code has it: for a non-null camera of width `w`, height `h` and
byte depth `d` with `w * d < 2^32` and `d * w * h < 2^32`, whose buffer holds at
least `d * w * h` bytes, `OnNewFrame` completes and publishes one message with
width `w`, height `h`, pixel format equal to the camera's format tag (the
message carries the result of `ConvertPixelFormat` on `ImageFormat()`, which
is the pixel format `f` whenever `f` is the camera's format tag), row stride
`w * d` and, as payload, the first `d * w * h` bytes of the buffer, so that the
payload length is `d * w * h`, which is stride times height.  The buffer
belongs to the simulator state, which the callback only reads: the callback
returns the plugin state with the one publication appended and nothing else
changed. -/
theorem color_marshal (host : Host) (s : RealSensePlugin) (p : CamPtr) (q : PubId)
    (w h d : Nat)
    (hw : (host.cam p).ImageWidth = w) (hh : (host.cam p).ImageHeight = h)
    (hd : (host.cam p).ImageDepth = d)
    (hstep : w * d < 2 ^ 32) (hsize : d * w * h < 2 ^ 32)
    (hbuf : d * w * h ≤ (host.cam p).ImageData.length) :
    ∃ msg, OnNewFrame host (some p) (some q) s =
        .ok { s with published := s.published ++ [(q, msg)] } ∧
      msg.width = w ∧ msg.height = h ∧
      msg.pixel_format = host.ConvertPixelFormat (host.cam p).ImageFormat ∧
      (∀ f, FormatTag host (host.cam p) f → msg.pixel_format = f) ∧
      msg.step = w * d ∧
      msg.data = (host.cam p).ImageData.take (d * w * h) ∧
      msg.data.length = d * w * h ∧
      msg.data.length = msg.step * h := by
  subst hw hh hd
  refine ⟨{ time := host.SimTime
            width := (host.cam p).ImageWidth
            height := (host.cam p).ImageHeight
            pixel_format := host.ConvertPixelFormat (host.cam p).ImageFormat
            step := (host.cam p).ImageWidth * (host.cam p).ImageDepth
            data := (host.cam p).ImageData.take
              ((host.cam p).ImageDepth * (host.cam p).ImageWidth *
                (host.cam p).ImageHeight) },
    ?_, rfl, rfl, rfl, ?_, rfl, rfl, ?_, ?_⟩
  · unfold OnNewFrame
    simp only [imageMsg_eq host (host.cam p) hstep hsize hbuf, Publish]
  · intro f hf
    show host.ConvertPixelFormat (host.cam p).ImageFormat = f
    rw [hf.1, hf.2]
  · simp only [List.length_take]
    omega
  · simp only [List.length_take]
    rw [Nat.min_eq_left hbuf]
    ring

/-- C4 at the 1x1 camera with three bytes per pixel, format tag `RGB_INT8`
(pixel format 3) and buffer `[10, 20, 30]`: width 1, height 1, pixel format 3,
stride 3, payload `[10, 20, 30]`. -/
theorem color_marshal_witness :
    ∃ msg,
      OnNewFrame (demoHost (depthCam2x1 2) colorCam1x1 colorCam1x1 colorCam1x1) (some 3)
          (some 3) (construct demoHdr) =
        .ok { construct demoHdr with published := [(3, msg)] } ∧
      msg.width = 1 ∧ msg.height = 1 ∧ msg.pixel_format = 3 ∧ msg.step = 3 ∧
      msg.data = [10, 20, 30] := by
  obtain ⟨msg, h1, h2, h3, _, h4, h5, h6, _, _⟩ :=
    color_marshal (demoHost (depthCam2x1 2) colorCam1x1 colorCam1x1 colorCam1x1)
      (construct demoHdr) 3 3 1 1 3 rfl rfl rfl (by norm_num) (by norm_num) (by decide)
  exact ⟨msg, h1, h2, h3, h4 3 (by decide), h5, h6⟩

/-- C4 fails without a bound on the sizes: for a 65536x65536 camera with one
byte per pixel whose buffer holds all `2^32` bytes, the byte count computed in
`unsigned int` is `0` and the published payload is empty. -/
theorem color_marshal_wraps :
    irCamHuge.ImageDepth * irCamHuge.ImageWidth * irCamHuge.ImageHeight ≤
        irCamHuge.ImageData.length ∧
      ∃ msg,
        OnNewFrame (demoHost (depthCam2x1 2) irCamHuge colorCam1x1 colorCam1x1) (some 1)
            (some 1) (construct demoHdr) =
          .ok { construct demoHdr with published := [(1, msg)] } ∧
        msg.data = [] ∧
        msg.data.length ≠
          irCamHuge.ImageDepth * irCamHuge.ImageWidth * irCamHuge.ImageHeight := by
  constructor
  · show 1 * 65536 * 65536 ≤ (List.replicate 4294967296 0).length
    rw [List.length_replicate]
  · exact ⟨_,
      OnNewFrame_wrapped (demoHost (depthCam2x1 2) irCamHuge colorCam1x1 colorCam1x1)
        (construct demoHdr) 1 1 (by decide),
      rfl, by decide⟩

/-! ## Sensor binding -/

theorem GetAndCheckSensor_of_cast (T : SensorKind) (host : Host) (name : String)
    (ts : TypedSensor) (h : dynamic_pointer_cast T (host.GetSensor name) = some ts) :
    GetAndCheckSensor T host name = (some ts, []) := by
  unfold GetAndCheckSensor
  cases hs : host.GetSensor name with
  | none => rw [hs] at h; simp [dynamic_pointer_cast] at h
  | some sn => rw [hs] at h; simp only [h]

theorem GetAndCheckSensor_of_none (T : SensorKind) (host : Host) (name : String)
    (h : host.GetSensor name = none) :
    GetAndCheckSensor T host name =
      (none, [Diag.sensorNotFound name (host.GetSensors.map Sensor.Name)]) := by
  unfold GetAndCheckSensor
  simp only [h]

theorem GetAndCheckSensor_fst (T : SensorKind) (host : Host) (name : String) :
    (GetAndCheckSensor T host name).1 = dynamic_pointer_cast T (host.GetSensor name) := by
  unfold GetAndCheckSensor
  cases host.GetSensor name <;> rfl

/-- With the four sensors resolving to sensors of the expected kind, each with
a non-null camera, and room for `depthMap`, `Load` on a fresh plugin completes
in `loadedState`. -/
theorem Load_full (names : CameraNames) (host : Host) (sdf : Sdf) (hdr : HeaderDefaults)
    (pd p1 p2 pc : CamPtr)
    (hd : dynamic_pointer_cast .DepthCameraSensor
      (host.GetSensor (lookupName sdf hdr names.DEPTH_CAMERA_NAME)) = some ⟨some pd⟩)
    (h1 : dynamic_pointer_cast .CameraSensor
      (host.GetSensor (lookupName sdf hdr names.IRED1_CAMERA_NAME)) = some ⟨some p1⟩)
    (h2 : dynamic_pointer_cast .CameraSensor
      (host.GetSensor (lookupName sdf hdr names.IRED2_CAMERA_NAME)) = some ⟨some p2⟩)
    (hc : dynamic_pointer_cast .CameraSensor
      (host.GetSensor (lookupName sdf hdr names.COLOR_CAMERA_NAME)) = some ⟨some pc⟩)
    (halloc : resizeOk host [] (imageSize (host.cam pd)) = true) :
    Load names host sdf (construct hdr) = .ok (loadedState host sdf hdr pd p1 p2 pc) := by
  unfold lookupName at hd h1 h2 hc
  have gd := GetAndCheckSensor_of_cast _ _ _ _ hd
  have g1 := GetAndCheckSensor_of_cast _ _ _ _ h1
  have g2 := GetAndCheckSensor_of_cast _ _ _ _ h2
  have gc := GetAndCheckSensor_of_cast _ _ _ _ hc
  have hm : (readSdf sdf (construct hdr)).depthMap = [] := rfl
  unfold Load
  simp only [hd, gd, g1, g2, gc, assignIf, checkCam, List.append_nil, ne_eq,
    not_true_eq_false, if_false, deref, hm, halloc, if_true, wire, resize, loadedState,
    List.take_nil, List.length_nil, Nat.sub_zero, List.nil_append]

/-- When the depth sensor name does not resolve, `Load` dereferences a null
pointer at lines 145-147, before any checked lookup. -/
theorem Load_depth_missing (names : CameraNames) (host : Host) (sdf : Sdf)
    (hdr : HeaderDefaults)
    (hd : host.GetSensor (lookupName sdf hdr names.DEPTH_CAMERA_NAME) = none) :
    Load names host sdf (construct hdr) = .error .nullDeref := by
  unfold lookupName at hd
  unfold Load
  simp only [hd, dynamic_pointer_cast]

/-- When the depth sensor resolves to a depth camera sensor and one of the four
roles ends without a camera (the depth camera is null, or an image sensor does
not resolve to a camera sensor, or its camera is null), `Load` returns and
leaves the plugin unarmed. -/
theorem Load_not_bound (names : CameraNames) (host : Host) (sdf : Sdf)
    (hdr : HeaderDefaults) (ds : TypedSensor)
    (hd : dynamic_pointer_cast .DepthCameraSensor
      (host.GetSensor (lookupName sdf hdr names.DEPTH_CAMERA_NAME)) = some ds)
    (hmiss :
      ds.Camera = none ∨
      assignIf (dynamic_pointer_cast .CameraSensor
        (host.GetSensor (lookupName sdf hdr names.IRED1_CAMERA_NAME))) none = none ∨
      assignIf (dynamic_pointer_cast .CameraSensor
        (host.GetSensor (lookupName sdf hdr names.IRED2_CAMERA_NAME))) none = none ∨
      assignIf (dynamic_pointer_cast .CameraSensor
        (host.GetSensor (lookupName sdf hdr names.COLOR_CAMERA_NAME))) none = none) :
    ∃ s, Load names host sdf (construct hdr) = .ok s ∧ Unarmed s ∧
      Diag.abortingLoading ∈ s.cerr := by
  unfold lookupName at hd hmiss
  have gd := GetAndCheckSensor_of_cast _ _ _ _ hd
  have e1 : (readSdf sdf (construct hdr)).ired1Cam = none := rfl
  have e2 : (readSdf sdf (construct hdr)).ired2Cam = none := rfl
  have e3 : (readSdf sdf (construct hdr)).colorCam = none := rfl
  have f1 := GetAndCheckSensor_fst .CameraSensor host
    ((readSdf sdf (construct hdr)).pfx ++ names.IRED1_CAMERA_NAME)
  have f2 := GetAndCheckSensor_fst .CameraSensor host
    ((readSdf sdf (construct hdr)).pfx ++ names.IRED2_CAMERA_NAME)
  have f3 := GetAndCheckSensor_fst .CameraSensor host
    ((readSdf sdf (construct hdr)).pfx ++ names.COLOR_CAMERA_NAME)
  have hne : checkCam .depth (assignIf (some ds) ds.Camera) ++
      checkCam .ired1 (assignIf (GetAndCheckSensor .CameraSensor host
        ((readSdf sdf (construct hdr)).pfx ++ names.IRED1_CAMERA_NAME)).1 none) ++
      checkCam .ired2 (assignIf (GetAndCheckSensor .CameraSensor host
        ((readSdf sdf (construct hdr)).pfx ++ names.IRED2_CAMERA_NAME)).1 none) ++
      checkCam .color (assignIf (GetAndCheckSensor .CameraSensor host
        ((readSdf sdf (construct hdr)).pfx ++ names.COLOR_CAMERA_NAME)).1 none) ≠ [] := by
    rw [f1, f2, f3]
    rcases hmiss with h | h | h | h
    · simp [checkCam, assignIf, h]
    · rw [h]; simp [checkCam]
    · rw [h]; simp [checkCam]
    · rw [h]; simp [checkCam]
  unfold Load
  simp only [hd, gd, e1, e2, e3]
  rw [if_pos hne]
  exact ⟨_, rfl, ⟨rfl, rfl, rfl, rfl⟩, by simp⟩

/-- When the four sensors resolve with non-null cameras and `depthMap` cannot
be resized, `Load` returns and leaves the plugin unarmed. -/
theorem Load_alloc_failed (names : CameraNames) (host : Host) (sdf : Sdf)
    (hdr : HeaderDefaults) (pd p1 p2 pc : CamPtr)
    (hd : dynamic_pointer_cast .DepthCameraSensor
      (host.GetSensor (lookupName sdf hdr names.DEPTH_CAMERA_NAME)) = some ⟨some pd⟩)
    (h1 : dynamic_pointer_cast .CameraSensor
      (host.GetSensor (lookupName sdf hdr names.IRED1_CAMERA_NAME)) = some ⟨some p1⟩)
    (h2 : dynamic_pointer_cast .CameraSensor
      (host.GetSensor (lookupName sdf hdr names.IRED2_CAMERA_NAME)) = some ⟨some p2⟩)
    (hc : dynamic_pointer_cast .CameraSensor
      (host.GetSensor (lookupName sdf hdr names.COLOR_CAMERA_NAME)) = some ⟨some pc⟩)
    (halloc : resizeOk host [] (imageSize (host.cam pd)) = false) :
    ∃ s, Load names host sdf (construct hdr) = .ok s ∧ Unarmed s ∧
      s.cerr = [Diag.allocationFailed] := by
  unfold lookupName at hd h1 h2 hc
  have gd := GetAndCheckSensor_of_cast _ _ _ _ hd
  have g1 := GetAndCheckSensor_of_cast _ _ _ _ h1
  have g2 := GetAndCheckSensor_of_cast _ _ _ _ h2
  have gc := GetAndCheckSensor_of_cast _ _ _ _ hc
  have hm : (readSdf sdf (construct hdr)).depthMap = [] := rfl
  unfold Load
  simp only [hd, gd, g1, g2, gc, assignIf, checkCam, List.append_nil, ne_eq,
    not_true_eq_false, if_false, deref, hm, halloc]
  exact ⟨_, rfl, ⟨rfl, rfl, rfl, rfl⟩, rfl⟩

theorem not_armed_of_unarmed (s : RealSensePlugin) (h : Unarmed s) (r : Role) :
    ¬ Armed s r := by
  have hc := h.2.2.1
  unfold connections at hc
  cases h1 : s.newDepthFrameConn <;> cases h2 : s.newIred1FrameConn <;>
    cases h3 : s.newIred2FrameConn <;> cases h4 : s.newColorFrameConn <;>
    simp [h1, h2, h3, h4, List.reduceOption] at hc
  cases r <;> simp [Armed, connOf, h1, h2, h3, h4]

theorem cast_of_assignIf (c : Option TypedSensor) (p : CamPtr)
    (h : assignIf c none = some p) : c = some ⟨some p⟩ := by
  cases c with
  | none => simp [assignIf] at h
  | some ts =>
    cases ts with
    | mk cam =>
      simp only [assignIf] at h
      rw [h]

/-- A `Load` that returns with an armed role has bound four non-null cameras
and left the plugin in `loadedState`. -/
theorem Load_armed_inv (names : CameraNames) (host : Host) (sdf : Sdf) (hdr : HeaderDefaults)
    (s : RealSensePlugin) (r : Role)
    (hload : Load names host sdf (construct hdr) = .ok s) (harmed : Armed s r) :
    ∃ pd p1 p2 pc, s = loadedState host sdf hdr pd p1 p2 pc ∧
      dynamic_pointer_cast .DepthCameraSensor
        (host.GetSensor (lookupName sdf hdr names.DEPTH_CAMERA_NAME)) = some ⟨some pd⟩ ∧
      dynamic_pointer_cast .CameraSensor
        (host.GetSensor (lookupName sdf hdr names.IRED1_CAMERA_NAME)) = some ⟨some p1⟩ ∧
      dynamic_pointer_cast .CameraSensor
        (host.GetSensor (lookupName sdf hdr names.IRED2_CAMERA_NAME)) = some ⟨some p2⟩ ∧
      dynamic_pointer_cast .CameraSensor
        (host.GetSensor (lookupName sdf hdr names.COLOR_CAMERA_NAME)) = some ⟨some pc⟩ ∧
      resizeOk host [] (imageSize (host.cam pd)) = true := by
  cases hd : dynamic_pointer_cast .DepthCameraSensor
      (host.GetSensor (lookupName sdf hdr names.DEPTH_CAMERA_NAME)) with
  | none =>
    exfalso
    have h : Load names host sdf (construct hdr) = .error .nullDeref := by
      unfold lookupName at hd
      unfold Load
      simp only [hd]
    rw [h] at hload
    cases hload
  | some ds =>
    have absurdity : (∃ t, Load names host sdf (construct hdr) = .ok t ∧ Unarmed t) → False := by
      rintro ⟨t, ht, hu⟩
      rw [ht] at hload
      cases hload
      exact not_armed_of_unarmed _ hu r harmed
    cases hdc : ds.Camera with
    | none =>
      obtain ⟨t, ht, hu, _⟩ := Load_not_bound names host sdf hdr ds hd (Or.inl hdc)
      exact (absurdity ⟨t, ht, hu⟩).elim
    | some pd =>
      have hds : ds = ⟨some pd⟩ := by
        cases ds with
        | mk cam =>
          simp only at hdc
          rw [hdc]
      subst hds
      cases h1 : assignIf (dynamic_pointer_cast .CameraSensor
          (host.GetSensor (lookupName sdf hdr names.IRED1_CAMERA_NAME))) none with
      | none =>
        obtain ⟨t, ht, hu, _⟩ :=
          Load_not_bound names host sdf hdr _ hd (Or.inr (Or.inl h1))
        exact (absurdity ⟨t, ht, hu⟩).elim
      | some p1 =>
        cases h2 : assignIf (dynamic_pointer_cast .CameraSensor
            (host.GetSensor (lookupName sdf hdr names.IRED2_CAMERA_NAME))) none with
        | none =>
          obtain ⟨t, ht, hu, _⟩ :=
            Load_not_bound names host sdf hdr _ hd (Or.inr (Or.inr (Or.inl h2)))
          exact (absurdity ⟨t, ht, hu⟩).elim
        | some p2 =>
          cases hc : assignIf (dynamic_pointer_cast .CameraSensor
              (host.GetSensor (lookupName sdf hdr names.COLOR_CAMERA_NAME))) none with
          | none =>
            obtain ⟨t, ht, hu, _⟩ :=
              Load_not_bound names host sdf hdr _ hd (Or.inr (Or.inr (Or.inr hc)))
            exact (absurdity ⟨t, ht, hu⟩).elim
          | some pc =>
            have k1 := cast_of_assignIf _ _ h1
            have k2 := cast_of_assignIf _ _ h2
            have kc := cast_of_assignIf _ _ hc
            cases ha : resizeOk host [] (imageSize (host.cam pd)) with
            | false =>
              obtain ⟨t, ht, hu, _⟩ :=
                Load_alloc_failed names host sdf hdr pd p1 p2 pc hd k1 k2 kc ha
              exact (absurdity ⟨t, ht, hu⟩).elim
            | true =>
              have hl := Load_full names host sdf hdr pd p1 p2 pc hd k1 k2 kc ha
              rw [hl] at hload
              cases hload
              exact ⟨pd, p1, p2, pc, rfl, rfl, k1, k2, kc, ha⟩

/-! ## Claims on `Load` -/

theorem demo_depth_resolves (dc c1 c2 cc : Camera) :
    dynamic_pointer_cast .DepthCameraSensor
      ((demoHost dc c1 c2 cc).GetSensor
        (lookupName demoSdf demoHdr demoNames.DEPTH_CAMERA_NAME)) = some ⟨some 0⟩ := by
  simp [dynamic_pointer_cast, demoHost, lookupName, readSdf, demoSdf, construct, demoNames]

theorem demo_ired1_resolves (dc c1 c2 cc : Camera) :
    dynamic_pointer_cast .CameraSensor
      ((demoHost dc c1 c2 cc).GetSensor
        (lookupName demoSdf demoHdr demoNames.IRED1_CAMERA_NAME)) = some ⟨some 1⟩ := by
  simp [dynamic_pointer_cast, demoHost, lookupName, readSdf, demoSdf, construct, demoNames]

theorem demo_ired2_resolves (dc c1 c2 cc : Camera) :
    dynamic_pointer_cast .CameraSensor
      ((demoHost dc c1 c2 cc).GetSensor
        (lookupName demoSdf demoHdr demoNames.IRED2_CAMERA_NAME)) = some ⟨some 2⟩ := by
  simp [dynamic_pointer_cast, demoHost, lookupName, readSdf, demoSdf, construct, demoNames]

theorem demo_color_resolves (dc c1 c2 cc : Camera) :
    dynamic_pointer_cast .CameraSensor
      ((demoHost dc c1 c2 cc).GetSensor
        (lookupName demoSdf demoHdr demoNames.COLOR_CAMERA_NAME)) = some ⟨some 3⟩ := by
  simp [dynamic_pointer_cast, demoHost, lookupName, readSdf, demoSdf, construct, demoNames]

theorem loadedState_armed (host : Host) (sdf : Sdf) (hdr : HeaderDefaults)
    (pd p1 p2 pc : CamPtr) (r : Role) : Armed (loadedState host sdf hdr pd p1 p2 pc) r := by
  cases r <;> rfl

/-- C6: in a simulator where the three image sensors exist and the depth
sensor does not, `Load` does not return: the unchecked lookup of lines 145-147
dereferences the null result of the failed cast. -/
theorem Load_without_depth_sensor :
    (noDepthHost colorCam1x1).GetSensor "depth" = none ∧
      Load demoNames (noDepthHost colorCam1x1) demoSdf (construct demoHdr) =
        .error .nullDeref := by
  have h : (noDepthHost colorCam1x1).GetSensor
      (lookupName demoSdf demoHdr demoNames.DEPTH_CAMERA_NAME) = none := by
    simp [noDepthHost, lookupName, readSdf, demoSdf, construct, demoNames]
  exact ⟨by simp [noDepthHost], Load_depth_missing _ _ _ _ h⟩

/-- C8, as the code has it: when the four prefixed names resolve to sensors of
the expected kind, each giving a non-null camera, and the allocation succeeds,
`Load` completes, writes nothing to `std::cerr`, sizes `depthMap` to
`width * height` of the depth camera reduced modulo `2^32` (so to
`width * height` when that is below `2^32`), advertises four publishers with
queue limit 1, binds one to each role and ends with the four frame connections
active. -/
theorem Load_full_binding (names : CameraNames) (host : Host) (sdf : Sdf)
    (hdr : HeaderDefaults) (pd p1 p2 pc : CamPtr)
    (hd : dynamic_pointer_cast .DepthCameraSensor
      (host.GetSensor (lookupName sdf hdr names.DEPTH_CAMERA_NAME)) = some ⟨some pd⟩)
    (h1 : dynamic_pointer_cast .CameraSensor
      (host.GetSensor (lookupName sdf hdr names.IRED1_CAMERA_NAME)) = some ⟨some p1⟩)
    (h2 : dynamic_pointer_cast .CameraSensor
      (host.GetSensor (lookupName sdf hdr names.IRED2_CAMERA_NAME)) = some ⟨some p2⟩)
    (hc : dynamic_pointer_cast .CameraSensor
      (host.GetSensor (lookupName sdf hdr names.COLOR_CAMERA_NAME)) = some ⟨some pc⟩)
    (halloc : host.allocOk (imageSize (host.cam pd)) = true) :
    ∃ s, Load names host sdf (construct hdr) = .ok s ∧
      s.cerr = [] ∧
      s.depthMap.length = (host.cam pd).ImageWidth * (host.cam pd).ImageHeight % 2 ^ 32 ∧
      ((host.cam pd).ImageWidth * (host.cam pd).ImageHeight < 2 ^ 32 →
        s.depthMap.length = (host.cam pd).ImageWidth * (host.cam pd).ImageHeight) ∧
      s.advertised.map Channel.queueLimit = [1, 1, 1, 1] ∧
      [pubOf s .depth, pubOf s .ired1, pubOf s .ired2, pubOf s .color] =
        [some 0, some 1, some 2, some 3] ∧
      [camOf s .depth, camOf s .ired1, camOf s .ired2, camOf s .color] =
        [some pd, some p1, some p2, some pc] ∧
      ∀ r, Armed s r := by
  have hlen : (loadedState host sdf hdr pd p1 p2 pc).depthMap.length =
      (host.cam pd).ImageWidth * (host.cam pd).ImageHeight % 2 ^ 32 := by
    simp [loadedState, imageSize, UINT_MOD]
  refine ⟨loadedState host sdf hdr pd p1 p2 pc,
    Load_full names host sdf hdr pd p1 p2 pc hd h1 h2 hc (by simp [resizeOk, halloc]),
    rfl, hlen, ?_, rfl, rfl, rfl, loadedState_armed host sdf hdr pd p1 p2 pc⟩
  intro hlt
  rw [hlen, Nat.mod_eq_of_lt hlt]

/-- C8 at a simulator with the four sensors and a 2x1 depth camera. -/
theorem Load_full_binding_witness :
    ∃ s, Load demoNames (demoHost (depthCam2x1 2) colorCam1x1 colorCam1x1 colorCam1x1)
        demoSdf (construct demoHdr) = .ok s ∧
      s.cerr = [] ∧ s.depthMap.length = 2 ∧
      s.advertised.map Channel.queueLimit = [1, 1, 1, 1] ∧ ∀ r, Armed s r := by
  obtain ⟨s, h1, h2, _, h4, h5, _, _, h8⟩ :=
    Load_full_binding demoNames (demoHost (depthCam2x1 2) colorCam1x1 colorCam1x1 colorCam1x1)
      demoSdf demoHdr 0 1 2 3 (demo_depth_resolves _ _ _ _) (demo_ired1_resolves _ _ _ _)
      (demo_ired2_resolves _ _ _ _) (demo_color_resolves _ _ _ _) rfl
  exact ⟨s, h1, h2, h4 (by decide), h5, h8⟩

theorem nullCamera_depth_resolves (c : Camera) :
    dynamic_pointer_cast .DepthCameraSensor
      ((nullCameraHost c).GetSensor
        (lookupName demoSdf demoHdr demoNames.DEPTH_CAMERA_NAME)) = some ⟨some 0⟩ := by
  simp [dynamic_pointer_cast, nullCameraHost, lookupName, readSdf, demoSdf, construct,
    demoNames]

theorem nullCamera_ired1_resolves (c : Camera) :
    dynamic_pointer_cast .CameraSensor
      ((nullCameraHost c).GetSensor
        (lookupName demoSdf demoHdr demoNames.IRED1_CAMERA_NAME)) = some ⟨none⟩ := by
  simp [dynamic_pointer_cast, nullCameraHost, lookupName, readSdf, demoSdf, construct,
    demoNames]

theorem nullCamera_ired2_resolves (c : Camera) :
    dynamic_pointer_cast .CameraSensor
      ((nullCameraHost c).GetSensor
        (lookupName demoSdf demoHdr demoNames.IRED2_CAMERA_NAME)) = some ⟨some 2⟩ := by
  simp [dynamic_pointer_cast, nullCameraHost, lookupName, readSdf, demoSdf, construct,
    demoNames]

theorem nullCamera_color_resolves (c : Camera) :
    dynamic_pointer_cast .CameraSensor
      ((nullCameraHost c).GetSensor
        (lookupName demoSdf demoHdr demoNames.COLOR_CAMERA_NAME)) = some ⟨some 3⟩ := by
  simp [dynamic_pointer_cast, nullCameraHost, lookupName, readSdf, demoSdf, construct,
    demoNames]

/-- C8 fails in two ways.  With the four sensors present and of the expected
kind but a null `Camera()` on the first infrared sensor, `Load` reports
"InfraRed Camera 1 has not been found", aborts and arms nothing.  With four
non-null cameras, a 65536x65536 depth camera and an allocator that never
fails, `Load` arms the four roles with a `depthMap` of length `0`, not
`65536 * 65536`. -/
theorem Load_expected_kind_not_enough :
    (∃ ts1, dynamic_pointer_cast .CameraSensor
          ((nullCameraHost colorCam1x1).GetSensor
            (lookupName demoSdf demoHdr demoNames.IRED1_CAMERA_NAME)) = some ts1 ∧
        (nullCameraHost colorCam1x1).allocOk
          (imageSize ((nullCameraHost colorCam1x1).cam 0)) = true ∧
        ∃ s, Load demoNames (nullCameraHost colorCam1x1) demoSdf (construct demoHdr) = .ok s ∧
          s.cerr = [Diag.cameraNotFound .ired1, Diag.abortingLoading] ∧
          Unarmed s ∧ ∀ r, ¬ Armed s r) ∧
      ∃ s, Load demoNames (demoHost depthCamHuge colorCam1x1 colorCam1x1 colorCam1x1)
          demoSdf (construct demoHdr) = .ok s ∧
        s.cerr = [] ∧ (∀ r, Armed s r) ∧ s.depthMap.length = 0 ∧
        s.depthMap.length ≠ depthCamHuge.ImageWidth * depthCamHuge.ImageHeight := by
  constructor
  · refine ⟨_, nullCamera_ired1_resolves _, rfl, ?_⟩
    have gd := GetAndCheckSensor_of_cast _ _ _ _ (nullCamera_depth_resolves colorCam1x1)
    have g1 := GetAndCheckSensor_of_cast _ _ _ _ (nullCamera_ired1_resolves colorCam1x1)
    have g2 := GetAndCheckSensor_of_cast _ _ _ _ (nullCamera_ired2_resolves colorCam1x1)
    have gc := GetAndCheckSensor_of_cast _ _ _ _ (nullCamera_color_resolves colorCam1x1)
    have hd := nullCamera_depth_resolves colorCam1x1
    unfold lookupName at hd gd g1 g2 gc
    have hl : Load demoNames (nullCameraHost colorCam1x1) demoSdf (construct demoHdr) =
        .ok { readSdf demoSdf (construct demoHdr) with
              depthCam := some 0
              ired1Cam := none
              ired2Cam := some 2
              colorCam := some 3
              cerr := [Diag.cameraNotFound .ired1, Diag.abortingLoading] } := by
      unfold Load
      simp only [hd, gd, g1, g2, gc, assignIf, checkCam]
      rfl
    have hu : Unarmed { readSdf demoSdf (construct demoHdr) with
        depthCam := some 0
        ired1Cam := none
        ired2Cam := some 2
        colorCam := some 3
        cerr := [Diag.cameraNotFound .ired1, Diag.abortingLoading] } :=
      ⟨rfl, rfl, rfl, rfl⟩
    exact ⟨_, hl, rfl, hu, fun r => not_armed_of_unarmed _ hu r⟩
  · refine ⟨_,
      Load_full demoNames (demoHost depthCamHuge colorCam1x1 colorCam1x1 colorCam1x1)
        demoSdf demoHdr 0 1 2 3 (demo_depth_resolves _ _ _ _) (demo_ired1_resolves _ _ _ _)
        (demo_ired2_resolves _ _ _ _) (demo_color_resolves _ _ _ _) rfl,
      rfl, loadedState_armed _ _ _ _ _ _ _, ?_, ?_⟩
    · simp [loadedState, imageSize, UINT_MOD, demoHost, depthCamHuge]
    · simp [loadedState, imageSize, UINT_MOD, demoHost, depthCamHuge]

/-- C10, as the code has it: `Load` does not validate the depth dimensions.
When the four prefixed names resolve to sensors of the expected kind, each
giving a non-null camera, and the depth camera reports width 0 or height 0,
`Load` completes without writing to `std::cerr`, leaves `depthMap` empty,
advertises the four publishers and ends with the four frame connections
active. -/
theorem Load_zero_size (names : CameraNames) (host : Host) (sdf : Sdf)
    (hdr : HeaderDefaults) (pd p1 p2 pc : CamPtr)
    (hd : dynamic_pointer_cast .DepthCameraSensor
      (host.GetSensor (lookupName sdf hdr names.DEPTH_CAMERA_NAME)) = some ⟨some pd⟩)
    (h1 : dynamic_pointer_cast .CameraSensor
      (host.GetSensor (lookupName sdf hdr names.IRED1_CAMERA_NAME)) = some ⟨some p1⟩)
    (h2 : dynamic_pointer_cast .CameraSensor
      (host.GetSensor (lookupName sdf hdr names.IRED2_CAMERA_NAME)) = some ⟨some p2⟩)
    (hc : dynamic_pointer_cast .CameraSensor
      (host.GetSensor (lookupName sdf hdr names.COLOR_CAMERA_NAME)) = some ⟨some pc⟩)
    (hz : (host.cam pd).ImageWidth = 0 ∨ (host.cam pd).ImageHeight = 0) :
    ∃ s, Load names host sdf (construct hdr) = .ok s ∧
      s.cerr = [] ∧ s.depthMap = [] ∧ s.advertised.length = 4 ∧
      s.updateConnection = true ∧ ∀ r, Armed s r := by
  have hn : imageSize (host.cam pd) = 0 := by
    unfold imageSize
    rcases hz with h | h <;> simp [h]
  refine ⟨loadedState host sdf hdr pd p1 p2 pc,
    Load_full names host sdf hdr pd p1 p2 pc hd h1 h2 hc (by simp [resizeOk, hn]),
    rfl, ?_, rfl, rfl, loadedState_armed host sdf hdr pd p1 p2 pc⟩
  simp [loadedState, hn]

/-- C10 at a simulator with the four sensors and a 0x5 depth camera. -/
theorem Load_zero_size_witness :
    ∃ s, Load demoNames (demoHost depthCam0x5 colorCam1x1 colorCam1x1 colorCam1x1)
        demoSdf (construct demoHdr) = .ok s ∧
      s.cerr = [] ∧ s.depthMap = [] ∧ s.advertised.length = 4 ∧
      s.updateConnection = true ∧ ∀ r, Armed s r :=
  Load_zero_size demoNames (demoHost depthCam0x5 colorCam1x1 colorCam1x1 colorCam1x1)
    demoSdf demoHdr 0 1 2 3 (demo_depth_resolves _ _ _ _) (demo_ired1_resolves _ _ _ _)
    (demo_ired2_resolves _ _ _ _) (demo_color_resolves _ _ _ _) (Or.inl rfl)

/-- C10 fails: with the four sensors present and a depth camera of width 0,
`Load` is not stopped; it advertises four publishers and makes the four frame
connections, so the plugin is not left unarmed. -/
theorem Load_zero_width_arms :
    depthCam0x5.ImageWidth = 0 ∧
      ∃ s, Load demoNames (demoHost depthCam0x5 colorCam1x1 colorCam1x1 colorCam1x1)
          demoSdf (construct demoHdr) = .ok s ∧
        s.advertised.length = 4 ∧ (connections s).length = 4 ∧ ¬ Unarmed s := by
  refine ⟨rfl, _,
    Load_full demoNames (demoHost depthCam0x5 colorCam1x1 colorCam1x1 colorCam1x1)
      demoSdf demoHdr 0 1 2 3 (demo_depth_resolves _ _ _ _) (demo_ired1_resolves _ _ _ _)
      (demo_ired2_resolves _ _ _ _) (demo_color_resolves _ _ _ _) rfl,
    rfl, rfl, ?_⟩
  intro h
  have h2 := h.2.1
  simp [loadedState] at h2

/-! ## Dispatch -/

theorem imageMsg_of_ready (host : Host) (c : Camera)
    (h : c.ImageDepth * c.ImageWidth % UINT_MOD * c.ImageHeight % UINT_MOD ≤
      c.ImageData.length) :
    imageMsg host c =
      .ok { time := host.SimTime
            width := c.ImageWidth
            height := c.ImageHeight
            pixel_format := host.ConvertPixelFormat c.ImageFormat
            step := c.ImageWidth * c.ImageDepth % UINT_MOD
            data := c.ImageData.take
              (c.ImageDepth * c.ImageWidth % UINT_MOD * c.ImageHeight % UINT_MOD) } := by
  unfold imageMsg readBytes
  rw [if_pos h]

theorem SameWiring.refl (s : RealSensePlugin) : SameWiring s s :=
  ⟨rfl, rfl, rfl, rfl, rfl, rfl, rfl⟩

theorem SameWiring.trans {s t u : RealSensePlugin} (h1 : SameWiring s t)
    (h2 : SameWiring t u) : SameWiring s u := by
  obtain ⟨a1, a2, a3, a4, a5, a6, a7⟩ := h1
  obtain ⟨b1, b2, b3, b4, b5, b6, b7⟩ := h2
  exact ⟨b1.trans a1, b2.trans a2, b3.trans a3, b4.trans a4, b5.trans a5, b6.trans a6,
    b7.trans a7⟩

theorem SameWiring.connections {s t : RealSensePlugin} (h : SameWiring s t) :
    connections t = connections s := by
  obtain ⟨_, _, a3, a4, a5, a6, _⟩ := h
  unfold RealSense.connections
  rw [a3, a4, a5, a6]

theorem SameWiring.connOf {s t : RealSensePlugin} (h : SameWiring s t) (r : Role) :
    connOf t r = connOf s r := by
  obtain ⟨_, _, a3, a4, a5, a6, _⟩ := h
  cases r
  · exact a3
  · exact a4
  · exact a5
  · exact a6

theorem Publish_sameWiring (pub : Option PubId) (msg : ImageStamped)
    (s t u : RealSensePlugin) (hs : SameWiring s t)
    (h : Publish pub msg t = .ok u) : SameWiring s u ∧ u.depthMap = t.depthMap := by
  unfold Publish at h
  cases pub with
  | none => cases h
  | some q =>
    cases h
    exact ⟨hs, rfl⟩

/-- The image callback changes nothing but the log of published messages. -/
theorem OnNewFrame_sameWiring (host : Host) (cam : Option CamPtr) (pub : Option PubId)
    (s t : RealSensePlugin) (h : OnNewFrame host cam pub s = .ok t) :
    SameWiring s t ∧ t.depthMap = s.depthMap := by
  unfold OnNewFrame at h
  cases cam with
  | none => cases h
  | some p =>
    simp only at h
    cases hm : imageMsg host (host.cam p) with
    | error e => rw [hm] at h; cases h
    | ok msg =>
      rw [hm] at h
      exact Publish_sameWiring pub msg s s t (SameWiring.refl s) h

/-- The depth callback keeps the length of `depthMap` and the wiring. -/
theorem OnNewDepthFrame_sameWiring (host : Host) (s t : RealSensePlugin)
    (h : OnNewDepthFrame host s = .ok t) : SameWiring s t := by
  unfold OnNewDepthFrame at h
  cases hc : s.depthCam with
  | none => rw [hc] at h; cases h
  | some p =>
    rw [hc] at h
    simp only at h
    cases hl : depthLoop (host.cam p).DepthData s.rangeMinDepth_ s.rangeMaxDepth_
        (imageSize (host.cam p)) s.depthMap with
    | error e => rw [hl] at h; cases h
    | ok dm =>
      rw [hl] at h
      simp only at h
      cases hm : depthMsg host (host.cam p) dm with
      | error e => rw [hm] at h; cases h
      | ok msg =>
        rw [hm] at h
        simp only at h
        have hlen := depthLoop_length _ _ _ _ _ _ hl
        refine (Publish_sameWiring _ _ s _ t ?_ h).1
        exact ⟨hc.symm, rfl, rfl, rfl, rfl, rfl, hlen⟩

theorem runCallback_sameWiring (host : Host) (cb : Callback) (s t : RealSensePlugin)
    (h : runCallback host cb s = .ok t) : SameWiring s t := by
  cases cb with
  | OnNewDepthFrame => exact OnNewDepthFrame_sameWiring host s t h
  | OnNewFrame cam pub => exact (OnNewFrame_sameWiring host cam pub s t h).1

theorem dispatch_sameWiring (host : Host) (src : CamPtr) (ev : FrameEvent) :
    ∀ (cs : List Conn) (s t : RealSensePlugin),
      cs.foldlM
        (fun st c =>
          if c.source = src ∧ c.event = ev then runCallback host c.callback st else .ok st)
        s = .ok t → SameWiring s t := by
  intro cs
  induction cs with
  | nil =>
    intro s t h
    simp only [List.foldlM_nil, pure, Except.pure] at h
    cases h
    exact SameWiring.refl s
  | cons c cs ih =>
    intro s t h
    simp only [List.foldlM_cons, bind, Except.bind] at h
    by_cases hc : c.source = src ∧ c.event = ev
    · simp only [if_pos hc] at h
      cases hr : runCallback host c.callback s with
      | error e => rw [hr] at h; cases h
      | ok u =>
        rw [hr] at h
        exact (runCallback_sameWiring host _ s u hr).trans (ih u t h)
    · simp only [if_neg hc] at h
      exact ih s t h

/-- A camera event keeps the length of `depthMap` and the wiring. -/
theorem notify_sameWiring (host : Host) (src : CamPtr) (ev : FrameEvent)
    (s t : RealSensePlugin) (h : notify host src ev s = .ok t) : SameWiring s t :=
  dispatch_sameWiring host src ev (connections s) s t h

/-- A frame callback keeps the length of `depthMap` and the wiring. -/
theorem fire_sameWiring (host : Host) (r : Role) (s t : RealSensePlugin)
    (h : fire host r s = .ok t) : SameWiring s t := by
  unfold fire at h
  cases hc : connOf s r with
  | none =>
    rw [hc] at h
    cases h
    exact SameWiring.refl s
  | some c =>
    rw [hc] at h
    exact runCallback_sameWiring host _ s t h

/-- A sequence of frame callbacks keeps the length of `depthMap` and the
wiring. -/
theorem run_sameWiring :
    ∀ (steps : List (Host × Role)) (s t : RealSensePlugin),
      run steps s = .ok t → SameWiring s t := by
  intro steps
  induction steps with
  | nil =>
    intro s t h
    simp only [run, List.foldlM_nil, pure, Except.pure] at h
    cases h
    exact SameWiring.refl s
  | cons e steps ih =>
    intro s t h
    simp only [run, List.foldlM_cons, bind, Except.bind] at h
    cases hn : fire e.1 e.2 s with
    | error x => rw [hn] at h; cases h
    | ok u =>
      rw [hn] at h
      exact (fire_sameWiring _ _ s u hn).trans (ih u t h)

/-- A depth-frame event of the depth camera runs `OnNewDepthFrame` and nothing
else, in every state wired as `loadedState`. -/
theorem notify_depth (host : Host) (s : RealSensePlugin) (h0 : Host) (sdf : Sdf)
    (hdr : HeaderDefaults) (pd p1 p2 pc : CamPtr)
    (hs : connections s = connections (loadedState h0 sdf hdr pd p1 p2 pc)) :
    notify host pd .NewDepthFrame s = OnNewDepthFrame host s := by
  unfold notify
  rw [hs]
  simp only [connections, loadedState, List.reduceOption_cons_of_some,
    List.reduceOption_nil, List.foldlM_cons, List.foldlM_nil, bind, Except.bind,
    runCallback, and_self, if_true, reduceCtorEq, and_false, if_false, pure, Except.pure]
  cases OnNewDepthFrame host s <;> rfl


/-- An image-frame event of the first infrared camera runs its bound
`OnNewFrame` and nothing else, provided no other image role holds that
camera. -/
theorem notify_ired1 (host : Host) (s : RealSensePlugin) (h0 : Host) (sdf : Sdf)
    (hdr : HeaderDefaults) (pd p1 p2 pc : CamPtr) (h2 : p2 ≠ p1) (hc : pc ≠ p1)
    (hs : connections s = connections (loadedState h0 sdf hdr pd p1 p2 pc)) :
    notify host p1 .NewImageFrame s = OnNewFrame host (some p1) (some 1) s := by
  unfold notify
  rw [hs]
  simp only [connections, loadedState, List.reduceOption_cons_of_some,
    List.reduceOption_nil, List.foldlM_cons, List.foldlM_nil, bind, Except.bind,
    runCallback, and_self, if_true, reduceCtorEq, and_false, if_false, pure, Except.pure,
    h2, hc, false_and, and_true]
  cases OnNewFrame host (some p1) (some 1) s <;> rfl

/-- An image-frame event of the second infrared camera runs its bound
`OnNewFrame` and nothing else, provided no other image role holds that
camera. -/
theorem notify_ired2 (host : Host) (s : RealSensePlugin) (h0 : Host) (sdf : Sdf)
    (hdr : HeaderDefaults) (pd p1 p2 pc : CamPtr) (h1 : p1 ≠ p2) (hc : pc ≠ p2)
    (hs : connections s = connections (loadedState h0 sdf hdr pd p1 p2 pc)) :
    notify host p2 .NewImageFrame s = OnNewFrame host (some p2) (some 2) s := by
  unfold notify
  rw [hs]
  simp only [connections, loadedState, List.reduceOption_cons_of_some,
    List.reduceOption_nil, List.foldlM_cons, List.foldlM_nil, bind, Except.bind,
    runCallback, and_self, if_true, reduceCtorEq, and_false, if_false, pure, Except.pure,
    h1, hc, false_and, and_true]
  cases OnNewFrame host (some p2) (some 2) s <;> rfl

/-- An image-frame event of the color camera runs its bound `OnNewFrame` and
nothing else, provided no other image role holds that camera. -/
theorem notify_color (host : Host) (s : RealSensePlugin) (h0 : Host) (sdf : Sdf)
    (hdr : HeaderDefaults) (pd p1 p2 pc : CamPtr) (h1 : p1 ≠ pc) (h2 : p2 ≠ pc)
    (hs : connections s = connections (loadedState h0 sdf hdr pd p1 p2 pc)) :
    notify host pc .NewImageFrame s = OnNewFrame host (some pc) (some 3) s := by
  unfold notify
  rw [hs]
  simp only [connections, loadedState, List.reduceOption_cons_of_some,
    List.reduceOption_nil, List.foldlM_cons, List.foldlM_nil, bind, Except.bind,
    runCallback, and_self, if_true, reduceCtorEq, and_false, if_false, pure, Except.pure,
    h1, h2, false_and, and_true]
  cases OnNewFrame host (some pc) (some 3) s <;> rfl

theorem publishedOn_append_other (s t : RealSensePlugin) (q q1 : PubId)
    (msg : ImageStamped) (h : q1 ≠ q) (hp : t.published = s.published ++ [(q, msg)]) :
    publishedOn t q1 = publishedOn s q1 := by
  have hq : ¬ q = q1 := fun e => h e.symm
  unfold publishedOn
  rw [hp]
  simp [List.filter_append, hq]

/-- The image callback on a ready camera: one message, built by `imageMsg` from
that camera, is published on the given publisher. -/
theorem OnNewFrame_of_ready (host : Host) (s : RealSensePlugin) (p : CamPtr) (q : PubId)
    (h : (host.cam p).ImageDepth * (host.cam p).ImageWidth % UINT_MOD *
      (host.cam p).ImageHeight % UINT_MOD ≤ (host.cam p).ImageData.length) :
    ∃ msg, imageMsg host (host.cam p) = .ok msg ∧
      OnNewFrame host (some p) (some q) s =
        .ok { s with published := s.published ++ [(q, msg)] } := by
  refine ⟨_, imageMsg_of_ready host (host.cam p) h, ?_⟩
  unfold OnNewFrame
  simp only [imageMsg_of_ready host (host.cam p) h, Publish]

/-- The depth callback on a ready camera: `depthMap` is rewritten by
`depthLoop` and one message, built by `depthMsg` from the rewritten map, is
published on the depth publisher. -/
theorem OnNewDepthFrame_of_ready (host : Host) (s : RealSensePlugin) (p : CamPtr) (q : PubId)
    (hcam : s.depthCam = some p) (hpub : s.depthPub = some q)
    (hdata : imageSize (host.cam p) ≤ (host.cam p).DepthData.length)
    (hmap : imageSize (host.cam p) ≤ s.depthMap.length) :
    ∃ dm msg,
      depthLoop (host.cam p).DepthData s.rangeMinDepth_ s.rangeMaxDepth_
        (imageSize (host.cam p)) s.depthMap = .ok dm ∧
      depthMsg host (host.cam p) dm = .ok msg ∧
      OnNewDepthFrame host s =
        .ok { s with depthMap := dm, published := s.published ++ [(q, msg)] } := by
  have hl := depthLoop_eq (host.cam p).DepthData s.rangeMinDepth_ s.rangeMaxDepth_
    s.depthMap _ hdata hmap
  have hlen := depthLoop_length _ _ _ _ _ _ hl
  have hlt := imageSize_lt (host.cam p)
  have hsz : 2 * imageSize (host.cam p) % SIZE_MOD = 2 * imageSize (host.cam p) := by
    apply Nat.mod_eq_of_lt
    simp only [UINT_MOD, SIZE_MOD] at hlt ⊢
    omega
  have hbytes : 2 * imageSize (host.cam p) ≤
      (depthMapBytes host.byteOrder
        (((host.cam p).DepthData.take (imageSize (host.cam p))).map
            (quantizePixel s.rangeMinDepth_ s.rangeMaxDepth_) ++
          s.depthMap.drop (imageSize (host.cam p)))).length := by
    rw [depthMapBytes_length, hlen]
    omega
  have hm : depthMsg host (host.cam p)
      (((host.cam p).DepthData.take (imageSize (host.cam p))).map
          (quantizePixel s.rangeMinDepth_ s.rangeMaxDepth_) ++
        s.depthMap.drop (imageSize (host.cam p))) =
      .ok { time := host.SimTime
            width := (host.cam p).ImageWidth
            height := (host.cam p).ImageHeight
            pixel_format := L_INT16
            step := (host.cam p).ImageWidth * (host.cam p).ImageDepth % UINT_MOD
            data := (depthMapBytes host.byteOrder
              (((host.cam p).DepthData.take (imageSize (host.cam p))).map
                  (quantizePixel s.rangeMinDepth_ s.rangeMaxDepth_) ++
                s.depthMap.drop (imageSize (host.cam p)))).take
                  (2 * imageSize (host.cam p)) } := by
    unfold depthMsg readBytes
    rw [hsz, if_pos hbytes]
  refine ⟨_, _, hl, hm, ?_⟩
  unfold OnNewDepthFrame
  simp only [hcam, hl, hm, Publish, hpub]

theorem loadedState_pub_injective (host : Host) (sdf : Sdf) (hdr : HeaderDefaults)
    (pd p1 p2 pc : CamPtr) (r1 r : Role) (q1 q : PubId)
    (h1 : pubOf (loadedState host sdf hdr pd p1 p2 pc) r1 = some q1)
    (h : pubOf (loadedState host sdf hdr pd p1 p2 pc) r = some q) (hne : r1 ≠ r) :
    q1 ≠ q := by
  intro e
  subst e
  cases r1 <;> cases r <;>
    first
    | exact hne rfl
    | (simp only [pubOf, loadedState, Option.some.injEq] at h1 h
       rw [← h1] at h
       exact absurd h (by decide))

/-- C7: in the state reached by a `Load` that armed the four roles, when the
camera of role `r` is held by no other role and holds the frame its callback
reads, one new-frame event of that camera completes and hands exactly one
message to `Publish`, on the publisher of `r`; the message is the one built from
that camera (by `depthLoop` and `depthMsg` for the depth role, by `imageMsg`
for the others); the publishers of the other roles receive nothing, and for a
role other than depth `depthMap` is unchanged. -/
theorem dispatch_routing (names : CameraNames) (host0 : Host) (sdf : Sdf)
    (hdr : HeaderDefaults) (s0 : RealSensePlugin)
    (hload : Load names host0 sdf (construct hdr) = .ok s0)
    (harmed : ∀ r, Armed s0 r)
    (host : Host) (r : Role) (p : CamPtr)
    (hp : camOf s0 r = some p)
    (hown : ∀ r1, r1 ≠ r → camOf s0 r1 ≠ some p)
    (hframe : FrameReady host s0 r p) :
    ∃ s1 msg q, pubOf s0 r = some q ∧
      notify host p (eventOf r) s0 = .ok s1 ∧
      s1.published = s0.published ++ [(q, msg)] ∧
      (∀ r1, r1 ≠ r → ∀ q1, pubOf s0 r1 = some q1 →
        publishedOn s1 q1 = publishedOn s0 q1) ∧
      (r = .depth →
        depthLoop (host.cam p).DepthData s0.rangeMinDepth_ s0.rangeMaxDepth_
          (imageSize (host.cam p)) s0.depthMap = .ok s1.depthMap ∧
        depthMsg host (host.cam p) s1.depthMap = .ok msg) ∧
      (r ≠ .depth → imageMsg host (host.cam p) = .ok msg ∧ s1.depthMap = s0.depthMap) := by
  obtain ⟨pd, p1, p2, pc, rfl, -, -, -, -, -⟩ :=
    Load_armed_inv names host0 sdf hdr s0 r hload (harmed r)
  cases r with
  | depth =>
    have hpd : pd = p := by simpa [camOf, loadedState] using hp
    subst hpd
    obtain ⟨dm, msg, hl, hm, hcb⟩ :=
      OnNewDepthFrame_of_ready host (loadedState host0 sdf hdr pd p1 p2 pc) pd 0 rfl rfl
        hframe.1 hframe.2
    refine ⟨{ loadedState host0 sdf hdr pd p1 p2 pc with
        depthMap := dm
        published := (loadedState host0 sdf hdr pd p1 p2 pc).published ++ [(0, msg)] },
      msg, 0, rfl, ?_, rfl, ?_, fun _ => ⟨hl, hm⟩, fun h => absurd rfl h⟩
    · show notify host pd .NewDepthFrame _ = _
      rw [notify_depth host _ host0 sdf hdr pd p1 p2 pc rfl, hcb]
    · intro r1 hr1 q1 hq1
      have hne : q1 ≠ 0 := loadedState_pub_injective _ _ _ _ _ _ _ r1 .depth q1 0 hq1 rfl hr1
      exact publishedOn_append_other _ _ 0 q1 msg hne rfl
  | ired1 =>
    have hpp : p1 = p := by simpa [camOf, loadedState] using hp
    subst hpp
    have h2 : p2 ≠ p1 := by
      have := hown .ired2 (by decide)
      simpa [camOf, loadedState] using this
    have hc : pc ≠ p1 := by
      have := hown .color (by decide)
      simpa [camOf, loadedState] using this
    obtain ⟨msg, hm, hcb⟩ :=
      OnNewFrame_of_ready host (loadedState host0 sdf hdr pd p1 p2 pc) p1 1 hframe
    refine ⟨{ loadedState host0 sdf hdr pd p1 p2 pc with
        published := (loadedState host0 sdf hdr pd p1 p2 pc).published ++ [(1, msg)] },
      msg, 1, rfl, ?_, rfl, ?_, fun h => Role.noConfusion h, fun _ => ⟨hm, rfl⟩⟩
    · show notify host p1 .NewImageFrame _ = _
      rw [notify_ired1 host _ host0 sdf hdr pd p1 p2 pc h2 hc rfl, hcb]
    · intro r1 hr1 q1 hq1
      have hne : q1 ≠ 1 := loadedState_pub_injective _ _ _ _ _ _ _ r1 .ired1 q1 1 hq1 rfl hr1
      exact publishedOn_append_other _ _ 1 q1 msg hne rfl
  | ired2 =>
    have hpp : p2 = p := by simpa [camOf, loadedState] using hp
    subst hpp
    have h1 : p1 ≠ p2 := by
      have := hown .ired1 (by decide)
      simpa [camOf, loadedState] using this
    have hc : pc ≠ p2 := by
      have := hown .color (by decide)
      simpa [camOf, loadedState] using this
    obtain ⟨msg, hm, hcb⟩ :=
      OnNewFrame_of_ready host (loadedState host0 sdf hdr pd p1 p2 pc) p2 2 hframe
    refine ⟨{ loadedState host0 sdf hdr pd p1 p2 pc with
        published := (loadedState host0 sdf hdr pd p1 p2 pc).published ++ [(2, msg)] },
      msg, 2, rfl, ?_, rfl, ?_, fun h => Role.noConfusion h, fun _ => ⟨hm, rfl⟩⟩
    · show notify host p2 .NewImageFrame _ = _
      rw [notify_ired2 host _ host0 sdf hdr pd p1 p2 pc h1 hc rfl, hcb]
    · intro r1 hr1 q1 hq1
      have hne : q1 ≠ 2 := loadedState_pub_injective _ _ _ _ _ _ _ r1 .ired2 q1 2 hq1 rfl hr1
      exact publishedOn_append_other _ _ 2 q1 msg hne rfl
  | color =>
    have hpp : pc = p := by simpa [camOf, loadedState] using hp
    subst hpp
    have h1 : p1 ≠ pc := by
      have := hown .ired1 (by decide)
      simpa [camOf, loadedState] using this
    have h2 : p2 ≠ pc := by
      have := hown .ired2 (by decide)
      simpa [camOf, loadedState] using this
    obtain ⟨msg, hm, hcb⟩ :=
      OnNewFrame_of_ready host (loadedState host0 sdf hdr pd p1 p2 pc) pc 3 hframe
    refine ⟨{ loadedState host0 sdf hdr pd p1 p2 pc with
        published := (loadedState host0 sdf hdr pd p1 p2 pc).published ++ [(3, msg)] },
      msg, 3, rfl, ?_, rfl, ?_, fun h => Role.noConfusion h, fun _ => ⟨hm, rfl⟩⟩
    · show notify host pc .NewImageFrame _ = _
      rw [notify_color host _ host0 sdf hdr pd p1 p2 pc h1 h2 rfl, hcb]
    · intro r1 hr1 q1 hq1
      have hne : q1 ≠ 3 := loadedState_pub_injective _ _ _ _ _ _ _ r1 .color q1 3 hq1 rfl hr1
      exact publishedOn_append_other _ _ 3 q1 msg hne rfl


theorem demo_Load (dc c1 c2 cc : Camera) :
    Load demoNames (demoHost dc c1 c2 cc) demoSdf (construct demoHdr) =
      .ok (loadedState (demoHost dc c1 c2 cc) demoSdf demoHdr 0 1 2 3) :=
  Load_full demoNames (demoHost dc c1 c2 cc) demoSdf demoHdr 0 1 2 3
    (demo_depth_resolves _ _ _ _) (demo_ired1_resolves _ _ _ _)
    (demo_ired2_resolves _ _ _ _) (demo_color_resolves _ _ _ _)
    (by simp [resizeOk, demoHost])

/-- C7 at the simulator with the four sensors: a new frame `[10, 20, 30]` of
the 1x1 color camera is published once, on the color publisher, and `depthMap`
is unchanged. -/
theorem dispatch_routing_witness :
    ∃ s1 msg,
      notify (demoHost (depthCam2x1 2) colorCam1x1 colorCam1x1 colorCam1x1) 3
          .NewImageFrame
          (loadedState (demoHost (depthCam2x1 2) colorCam1x1 colorCam1x1 colorCam1x1)
            demoSdf demoHdr 0 1 2 3) = .ok s1 ∧
      s1.published = [(3, msg)] ∧ msg.data = [10, 20, 30] ∧ s1.depthMap = [0, 0] := by
  obtain ⟨s1, msg, q, hq, hn, hpub, _, _, himg⟩ :=
    dispatch_routing demoNames (demoHost (depthCam2x1 2) colorCam1x1 colorCam1x1 colorCam1x1)
      demoSdf demoHdr _ (demo_Load _ _ _ _) (loadedState_armed _ _ _ _ _ _ _)
      (demoHost (depthCam2x1 2) colorCam1x1 colorCam1x1 colorCam1x1) .color 3 rfl
      (by intro r1 hr1; cases r1 <;> simp [camOf, loadedState] at hr1 ⊢)
      (by simp [FrameReady, demoHost, colorCam1x1, UINT_MOD])
  have hq3 : q = 3 := by
    simp only [pubOf, loadedState, Option.some.injEq] at hq
    exact hq.symm
  subst hq3
  obtain ⟨hm, hdm⟩ := himg (by decide)
  have hmsg : msg.data = [10, 20, 30] := by
    have h := imageMsg_of_ready
      (demoHost (depthCam2x1 2) colorCam1x1 colorCam1x1 colorCam1x1) colorCam1x1 (by decide)
    have e : (demoHost (depthCam2x1 2) colorCam1x1 colorCam1x1 colorCam1x1).cam 3 =
        colorCam1x1 := rfl
    rw [e, h] at hm
    cases hm
    rfl
  refine ⟨s1, msg, hn, ?_, hmsg, ?_⟩
  · rw [hpub]
    rfl
  · rw [hdm]
    rfl

/-! ## The length of `depthMap` -/

/-- C9, as the code has it: after a `Load` that armed the four roles, the
length of `depthMap` is `width * height` of the depth camera reduced modulo
`2^32` (so `width * height` when that is below `2^32`); every state reached by
a sequence of the four frame callbacks has a `depthMap` of that length; and in
every such state the depth callback, run on a camera that reports the width
and height it had at load and supplies at least `width * height` floats,
completes, with a loop bound `imageSize` equal to the length of `depthMap` and
at most the number of floats supplied, so that every index read or written is
below both. -/
theorem depthMap_bound_invariant (names : CameraNames) (host0 : Host) (sdf : Sdf)
    (hdr : HeaderDefaults) (s0 : RealSensePlugin)
    (hload : Load names host0 sdf (construct hdr) = .ok s0)
    (harmed : ∀ r, Armed s0 r) :
    ∃ pd, s0.depthCam = some pd ∧
      s0.depthMap.length =
        (host0.cam pd).ImageWidth * (host0.cam pd).ImageHeight % 2 ^ 32 ∧
      ((host0.cam pd).ImageWidth * (host0.cam pd).ImageHeight < 2 ^ 32 →
        s0.depthMap.length = (host0.cam pd).ImageWidth * (host0.cam pd).ImageHeight) ∧
      ∀ steps s, run steps s0 = .ok s →
        s.depthMap.length = s0.depthMap.length ∧
        ∀ host : Host,
          (host.cam pd).ImageWidth = (host0.cam pd).ImageWidth →
          (host.cam pd).ImageHeight = (host0.cam pd).ImageHeight →
          (host.cam pd).ImageWidth * (host.cam pd).ImageHeight ≤
            (host.cam pd).DepthData.length →
          imageSize (host.cam pd) = s.depthMap.length ∧
          imageSize (host.cam pd) ≤ (host.cam pd).DepthData.length ∧
          ∃ t, fire host .depth s = .ok t ∧
            OnNewDepthFrame host s = .ok t ∧
            notify host pd .NewDepthFrame s = .ok t ∧
            t.depthMap.length = s.depthMap.length := by
  obtain ⟨pd, p1, p2, pc, rfl, -, -, -, -, -⟩ :=
    Load_armed_inv names host0 sdf hdr s0 .depth hload (harmed .depth)
  have hlen : (loadedState host0 sdf hdr pd p1 p2 pc).depthMap.length =
      imageSize (host0.cam pd) := by
    simp [loadedState]
  have hM : imageSize (host0.cam pd) =
      (host0.cam pd).ImageWidth * (host0.cam pd).ImageHeight % 2 ^ 32 := by
    simp [imageSize, UINT_MOD]
  refine ⟨pd, rfl, hlen.trans hM, ?_, ?_⟩
  · intro hlt
    rw [hlen, hM, Nat.mod_eq_of_lt hlt]
  · intro steps s hrun
    have hsw := run_sameWiring steps _ s hrun
    have hcam := hsw.1
    have hpub := hsw.2.1
    have hl := hsw.2.2.2.2.2.2
    have hconn := hsw.connections
    have hfire : ∀ host : Host, fire host .depth s = OnNewDepthFrame host s := by
      intro host
      unfold fire
      rw [hsw.connOf .depth]
      rfl
    refine ⟨hl, ?_⟩
    intro host hw hh hdata
    have hsz : imageSize (host.cam pd) = imageSize (host0.cam pd) := by
      simp only [imageSize, hw, hh]
    have hle : imageSize (host.cam pd) ≤ (host.cam pd).DepthData.length :=
      le_trans (Nat.mod_le _ _) hdata
    have heq : imageSize (host.cam pd) = s.depthMap.length := by
      rw [hl, hlen, hsz]
    have hcb := OnNewDepthFrame_eq host s pd 0 hcam hpub hle (le_of_eq heq)
    refine ⟨heq, hle, _, ?_, hcb, ?_, ?_⟩
    · rw [hfire host, hcb]
    · rw [notify_depth host s host0 sdf hdr pd p1 p2 pc hconn, hcb]
    · exact (OnNewDepthFrame_sameWiring host s _ hcb).2.2.2.2.2.2

/-- C9 at the simulator with the four sensors and a 2x1 depth camera: after
`Load` the map has two entries, and a depth frame completes and leaves it with
two entries. -/
theorem depthMap_bound_invariant_witness :
    ∃ s0 t,
      Load demoNames (demoHost (depthCam2x1 2) colorCam1x1 colorCam1x1 colorCam1x1)
        demoSdf (construct demoHdr) = .ok s0 ∧
      s0.depthMap.length = 2 ∧
      fire (demoHost (depthCam2x1 2) colorCam1x1 colorCam1x1 colorCam1x1) .depth s0 =
        .ok t ∧
      t.depthMap.length = 2 := by
  obtain ⟨pd, hpd, _, h2, h3⟩ :=
    depthMap_bound_invariant demoNames
      (demoHost (depthCam2x1 2) colorCam1x1 colorCam1x1 colorCam1x1) demoSdf demoHdr _
      (demo_Load _ _ _ _) (loadedState_armed _ _ _ _ _ _ _)
  have hpd0 : pd = 0 := by
    simp only [loadedState, Option.some.injEq] at hpd
    exact hpd.symm
  subst hpd0
  have hlen := h2 (by decide)
  obtain ⟨_, h4⟩ := h3 [] _ rfl
  obtain ⟨_, _, t, ht, _, _, htl⟩ :=
    h4 (demoHost (depthCam2x1 2) colorCam1x1 colorCam1x1 colorCam1x1) rfl rfl (by decide)
  exact ⟨_, t, demo_Load _ _ _ _, hlen, ht, htl.trans hlen⟩

/-- C9 fails without a bound on the size: with the four sensors present and a
2147483648x2 depth camera, `Load` arms the four roles with a `depthMap` of
length `0`, not `2147483648 * 2`. -/
theorem depthMap_length_wraps :
    ∃ s, Load demoNames (demoHost depthCamWide colorCam1x1 colorCam1x1 colorCam1x1)
        demoSdf (construct demoHdr) = .ok s ∧
      (∀ r, Armed s r) ∧ s.depthMap.length = 0 ∧
      depthCamWide.ImageWidth * depthCamWide.ImageHeight = 4294967296 ∧
      s.depthMap.length ≠ depthCamWide.ImageWidth * depthCamWide.ImageHeight := by
  refine ⟨_, demo_Load _ _ _ _, loadedState_armed _ _ _ _ _ _ _, ?_, by decide, ?_⟩
  · simp [loadedState, imageSize, UINT_MOD, demoHost, depthCamWide]
  · simp [loadedState, imageSize, UINT_MOD, demoHost, depthCamWide]

end RealSense
